import Mathlib

/-!
Verification of the TurtleEvModel props pipeline.

This file gives a shallow embedding of the parts of the repository that the
checked claims are about:

* `src/dota_live_system.py` — the normalizer (`parse_dota_props`), the
  prediction engine (`generate_prediction`), change detection
  (`detect_changes`), the snapshot store (`save_props_and_predictions`),
  the alert dispatcher (`post_to_discord`) and the orchestration paths
  (`run_once`, one iteration of `monitor_loop`).
* `src/app.py` — the dashboard engine's `DotaPredictionEngine.predict`.

Modelling conventions:

* JSON-shaped Python values are modelled by `Json`; Python dicts appear as
  association lists with string keys (keys of real feed documents are
  unique, and lookups take the first binding).
* Python `float` values are modelled as exact rationals (`ℚ`).  The binary
  rounding of IEEE floats is not modelled; no claim checked here depends on
  a value where the two differ (boundary notes are placed at the point of
  use).  `round` is modelled exactly as Python's half-to-even rounding on
  the rational value.
* A Python exception is modelled as `Except.error`; code that cannot raise
  returns plain values.  `try/except` around a loop body becomes a `match`
  that discards the `error` branch.
* Wall-clock timestamps (`datetime.now().isoformat()`) and network results
  are passed in as explicit parameters.
* `hashlib.md5` is modelled as the identity on the hashed key string
  (distinct strings are assumed not to collide; equal strings always
  collide, which is all the arguments below use).
-/

/-! ## Python value model -/

/-- Model of a JSON-shaped Python value (the raw feed document). -/
inductive Json where
  | null : Json
  | b : Bool → Json
  | num : ℚ → Json
  | str : String → Json
  | arr : List Json → Json
  | obj : List (String × Json) → Json

namespace Json

/-- Structural equality for `Json` (models Python `==` on these values;
the `1 == True` corner of Python equality is not modelled, no claim
touches it).  The containers recurse through two helpers, elementwise on
first components and values. -/
def jeq : Json → Json → Bool
  | .arr xs, .arr ys => jeqA xs ys
  | .obj xs, .obj ys => jeqO xs ys
  | .str x, .str y => x == y
  | .num x, .num y => x == y
  | .b x, .b y => x == y
  | .null, .null => true
  | _, _ => false
where
  jeqA : List Json → List Json → Bool
    | u :: us, v :: vs => jeq u v && jeqA us vs
    | [], [] => true
    | _, _ => false
  jeqO : List (String × Json) → List (String × Json) → Bool
    | u :: us, v :: vs => u.1 == v.1 && jeq u.2 v.2 && jeqO us vs
    | [], [] => true
    | _, _ => false

instance : BEq Json := ⟨jeq⟩

end Json

/-- Python truthiness (`bool(x)` is `False`): `None`, `False`, `0`, `""`,
`[]` and `{}` are falsy. -/
def pyFalsy : Json → Bool
  | .null => true
  | .b b => !b
  | .num q => q == 0
  | .str s => s == ""
  | .arr l => l.isEmpty
  | .obj l => l.isEmpty

/-- Python truthiness, positive form. -/
def pyTruthy (j : Json) : Bool := !pyFalsy j

/-- Python `a or b` on values: `a` if truthy, else `b`. -/
def pyOr (a b : Json) : Json := if pyTruthy a then a else b

/-- Dict lookup with default, `d.get(k, dflt)`; raises `AttributeError`
when the receiver is not a dict. -/
def pyGetD (d : Json) (k : String) (dflt : Json) : Except String Json :=
  match d with
  | .obj kvs =>
    match kvs.find? (fun kv => kv.1 == k) with
    | some kv => .ok kv.2
    | none => .ok dflt
  | _ => .error "AttributeError: no attribute get"

/-- Python iteration `for x in j`: lists yield their elements, strings
their characters, dicts their keys; other values raise `TypeError`. -/
def pyIter : Json → Except String (List Json)
  | .arr xs => .ok xs
  | .str s => .ok (s.data.map (fun c => .str c.toString))
  | .obj kvs => .ok (kvs.map (fun kv => .str kv.1))
  | _ => .error "TypeError: not iterable"

/-- Python hashability of a value used as a dict key: lists and dicts
raise `TypeError: unhashable`. -/
def pyHashable : Json → Bool
  | .arr _ => false
  | .obj _ => false
  | _ => true

/-! ## Python string helpers (over `List Char`, so that everything is
kernel-executable) -/

/-- Whitespace as recognised by `str.strip()` / `str.split()` (ASCII
whitespace; the unicode cases do not arise in the modelled data). -/
def isPySpace (c : Char) : Bool :=
  [32, 9, 10, 13, 11, 12].contains c.toNat

/-- Leading and trailing whitespace removal on a character list. -/
def trimCharList (l : List Char) : List Char :=
  ((l.dropWhile isPySpace).reverse.dropWhile isPySpace).reverse

/-- Python `s.strip()`. -/
def pyStrip (s : String) : String := ⟨trimCharList s.data⟩

/-- ASCII lower-casing of one character, as `str.lower()` does on the
modelled data. -/
def pyLowerChar (c : Char) : Char :=
  if 'A' ≤ c && c ≤ 'Z' then Char.ofNat (c.toNat + 32) else c

/-- Python `s.lower()`. -/
def pyLower (s : String) : String := ⟨s.data.map pyLowerChar⟩

/-- Python substring test `needle in hay`. -/
def pyIn (needle hay : String) : Bool := decide (needle.data <:+: hay.data)

/-- Replacement of every occurrence of a (non-empty) pattern, Python
`s.replace(old, new)` scanning left to right; the fuel is the input
length, which suffices because every step consumes at least one
character. -/
def replaceCharList (old new : List Char) : ℕ → List Char → List Char
  | 0, l => l
  | _ + 1, [] => []
  | fuel + 1, c :: t =>
    if old ≠ [] ∧ old.isPrefixOf (c :: t) then
      new ++ replaceCharList old new fuel ((c :: t).drop old.length)
    else c :: replaceCharList old new fuel t

/-- Python `s.replace(old, new)` (used only with non-empty `old`). -/
def pyReplace (s old new : String) : String :=
  ⟨replaceCharList old.data new.data s.data.length s.data⟩

/-- Python `s.split(sep, 1)[1]`-style splitting: the text after the first
occurrence of the character, when present. -/
def pySplitFirst (sep : Char) : List Char → Option (List Char)
  | [] => none
  | c :: t => if c == sep then some t else pySplitFirst sep t

/-- Python `s.startswith(p)`. -/
def pyStartsWith (p s : String) : Bool := p.data.isPrefixOf s.data

/-! ## Python numbers: `round`, `float()` parsing, float formatting -/

/-- Python `round(q)` — round half to even, on the exact rational value
(the fractional part is below, above, or exactly one half; written with
both sides doubled to stay within floor-and-compare arithmetic). -/
def pyRound0 (q : ℚ) : ℤ :=
  if 2 * q < 2 * ⌊q⌋ + 1 then ⌊q⌋
  else if 2 * (⌊q⌋ : ℚ) + 1 < 2 * q then ⌊q⌋ + 1
  else if ⌊q⌋ % 2 = 0 then ⌊q⌋ else ⌊q⌋ + 1

/-- Python `round(q, 1)`. -/
def pyRound1 (q : ℚ) : ℚ := (pyRound0 (q * 10) : ℚ) / 10

/-- Run of leading decimal digits: accumulated value, digit count, rest. -/
def takeDigits (acc cnt : ℕ) : List Char → ℕ × ℕ × List Char
  | [] => (acc, cnt, [])
  | c :: t =>
    if '0' ≤ c && c ≤ '9' then takeDigits (acc * 10 + (c.toNat - 48)) (cnt + 1) t
    else (acc, cnt, c :: t)

/-- Python `float(s)` on a string: optional sign, decimal mantissa,
optional exponent, surrounding whitespace allowed.  (`inf`/`nan` and
digit-group underscores are not modelled; they do not occur in the feed
data and no claim depends on them.) -/
def parsePyFloat (s : String) : Option ℚ :=
  let cs := trimCharList s.data
  let (sgn, cs1) : ℚ × List Char :=
    match cs with
    | '+' :: t => (1, t)
    | '-' :: t => (-1, t)
    | t => (1, t)
  let (ip, ic, cs2) := takeDigits 0 0 cs1
  let (fp, fc, cs3) :=
    match cs2 with
    | '.' :: t => takeDigits 0 0 t
    | t => (0, 0, t)
  if ic = 0 ∧ fc = 0 then none
  else
    let mant : ℚ := (ip : ℚ) + (fp : ℚ) / 10 ^ fc
    match cs3 with
    | [] => some (sgn * mant)
    | 'e' :: t | 'E' :: t =>
      let (esgn, t1) : ℤ × List Char :=
        match t with
        | '+' :: u => (1, u)
        | '-' :: u => (-1, u)
        | u => (1, u)
      let (ev, ec, t2) := takeDigits 0 0 t1
      if ec = 0 ∨ t2 ≠ [] then none else some (sgn * mant * 10 ^ (esgn * (ev : ℤ)))
    | _ => none

/-- Python `float(x)` on a JSON-shaped value: numbers pass through, bools
become 0/1, strings are parsed, everything else raises `TypeError`. -/
def pyFloatJ : Json → Except String ℚ
  | .num q => .ok q
  | .b true => .ok 1
  | .b false => .ok 0
  | .str s =>
    match parsePyFloat s with
    | some q => .ok q
    | none => .error "ValueError: could not convert string to float"
  | _ => .error "TypeError: float() argument"

/-- Decimal digits of the fractional part `0 ≤ q < 1`, up to 17 digits (the
precision of a printed Python float; every line value in the modelled feed
terminates well before that). -/
def fracDigits : ℕ → ℚ → String
  | 0, _ => ""
  | n + 1, q =>
    if q = 0 then ""
    else
      let q10 := q * 10
      let d : ℤ := ⌊q10⌋
      toString d ++ fracDigits n (q10 - d)

/-- Python float formatting `f"{x}"` for a non-negative value: always at
least one fractional digit (`5.0`, `5.5`). -/
def floatReprNN (q : ℚ) : String :=
  let ip : ℤ := ⌊q⌋
  let fr := q - ip
  toString ip ++ "." ++ (if fr = 0 then "0" else fracDigits 17 fr)

/-- Python float formatting `f"{x}"` of a float value. -/
def floatRepr (q : ℚ) : String :=
  if q < 0 then "-" ++ floatReprNN (-q) else floatReprNN q

/-- Joining with a separator (used by the Python-repr model). -/
def sjoin (sep : String) : List String → String
  | [] => ""
  | [x] => x
  | x :: y :: t => x ++ sep ++ sjoin sep (y :: t)

/-- Integer-valued numbers print without a decimal point (Python `int`),
other numbers as floats; JSON has no separate int type, so the model keys
on the denominator. -/
def numRepr (q : ℚ) : String := if q.den = 1 then toString q.num else floatRepr q

/-- Python `repr(x)` for JSON-shaped values, fuel-bounded on nesting depth
(the modelled documents are nowhere near 100 levels deep). -/
def pyReprFuel : ℕ → Json → String
  | _, .null => "None"
  | _, .b true => "True"
  | _, .b false => "False"
  | _, .num q => numRepr q
  | _, .str s => "\x27" ++ s ++ "\x27"
  | 0, .arr _ => "[...]"
  | 0, .obj _ => "\x7b...\x7d"
  | n + 1, .arr xs => "[" ++ sjoin ", " (xs.map (pyReprFuel n)) ++ "]"
  | n + 1, .obj kvs =>
    "\x7b" ++ sjoin ", " (kvs.map (fun kv => "\x27" ++ kv.1 ++ "\x27: " ++ pyReprFuel n kv.2)) ++ "\x7d"

/-- Python `str(x)`: strings pass through unquoted, other values print as
their repr. -/
def pyStrJ : Json → String
  | .str s => s
  | j => pyReprFuel 100 j

/-- Requiring a string receiver (calling a `str` method such as `.lower()`
on a non-string raises `AttributeError`). -/
def pyAsStr : Json → Except String String
  | .str s => .ok s
  | _ => .error "AttributeError: not a str"

/-! ## Normalizer constants (`dota_live_system.py`) -/

/-- Minimum absolute edge for a non-PASS pick (`MIN_EDGE = 3.0`). -/
def MIN_EDGE : ℚ := 3

/-- Ordered substring-to-canonical-stat table (`DOTA_STAT_MAP`; Python dict
iteration follows insertion order, first matching key wins). -/
def DOTA_STAT_MAP : List (String × String) :=
  [("kills", "Kills"), ("kills_in_game_1", "Kills"), ("kills_in_game_2", "Kills"),
   ("fantasy_points", "Fantasy Points"), ("fantasy_points_in_game_1", "Fantasy Points"),
   ("fantasy_points_in_game_2", "Fantasy Points"),
   ("assists", "Assists"), ("assists_in_game_1", "Assists"),
   ("deaths", "Deaths"), ("deaths_in_game_1", "Deaths")]

/-- Curated team token allow-list (`DOTA_TEAMS`). -/
def DOTA_TEAMS : List String :=
  ["team spirit", "og", "tundra", "liquid", "team liquid", "secret", "team secret",
   "entity", "betboom", "psg.lgd", "lgd", "xtreme", "quest", "falcons", "nouns",
   "gaimin", "talon", "aurora", "beastcoast", "eg", "evil geniuses", "nigma",
   "alliance", "vp", "virtus.pro", "navi", "natus vincere", "aster", "rng"]

/-- Curated player allow-list (`KNOWN_PLAYERS`). -/
def KNOWN_PLAYERS : List String :=
  ["Crystallis", "Yuma", "Ame", "skiter", "Pure", "Watson", "flyfly", "33",
   "Collapse", "Mira", "Larl", "Miposhka", "Yatoro", "TorontoTokyo",
   "Nisha", "zai", "Puppey", "gpk", "Quinn", "Arteezy", "Cr1t",
   "SumaiL", "Topson", "ana", "Ceb", "JerAx", "N0tail", "Fly",
   "RAMZES666", "Solo", "w33", "Miracle", "GH", "Mind_Control", "KuroKy",
   "MidOne", "SoNNeikO", "TORONTOTOKYO", "DM", "Faith_bian",
   "NothingToSay", "XinQ", "Erika", "gotthejuice", "Crystallize"]

/-! ## `is_dota_prop` -/

/-- Domain gate `is_dota_prop(title, over_under)`: the title mentions the
domain marker, or the sport tag is esports and a known team/player token
appears, or a team token appears on its own. -/
def isDotaProp (titleS : String) (overUnder : Json) : Except String Bool :=
  let tl := pyLower titleS
  if pyIn "dota" tl then .ok true
  else
    match pyGetD overUnder "sport_id" (.str "") with
    | .error e => .error e
    | .ok sidJ =>
      let sid := pyLower (pyStrJ sidJ)
      if pyIn "esport" sid &&
          (DOTA_TEAMS.any (fun t => pyIn t tl) ||
           KNOWN_PLAYERS.any (fun p => pyIn (pyLower p) tl)) then .ok true
      else if DOTA_TEAMS.any (fun t => pyIn t tl) then .ok true
      else .ok false

/-! ## `extract_player_name` -/

/-- Stat-name suffixes stripped from `"Dota: <Player><Stat>"` titles. -/
def stripStatNames : List String :=
  ["Kills", "Fantasy Points", "Assists", "Deaths", "Last Hits", "GPM", "XPM"]

/-- Loop over the stat suffixes: first one whose removal leaves a non-empty
name wins; an empty remainder falls through to the next suffix. -/
def findStripName : List String → String → Option String
  | [], _ => none
  | stat :: rest, pp =>
    if pyIn stat pp then
      if pyStrip (pyReplace pp stat "") ≠ "" then some (pyStrip (pyReplace pp stat ""))
      else findStripName rest pp
    else findStripName rest pp

/-- Branch (a) of player-name resolution: parse `"Dota: <Player><Stat>"`
from the title. -/
def dotaTitleName (titleS : String) : Option String :=
  if pyStartsWith "Dota:" titleS then
    match pySplitFirst ':' titleS.data with
    | some restCs => findStripName stripStatNames (pyStrip ⟨restCs⟩)
    | none => none
  else none

/-- Branch (c): substring match against the curated player allow-list. -/
def knownPlayerIn (titleS : String) : Option String :=
  KNOWN_PLAYERS.find? (fun p => pyIn (pyLower p) (pyLower titleS))

/-- Id-keyed map lookup (Python dict access on the id-indexed maps). -/
def mapFind (m : List (Json × Json)) (k : Json) : Option Json :=
  (m.find? (fun kv => kv.1 == k)).map (fun kv => kv.2)

/-- Python's name cascade on the stripped first/last names: first alone,
last alone, `f"{first} {last}".strip()`, or the allow-list fallback. -/
def nameFromFields (first last : String) (fallback : Option String) : Option String :=
  if first ≠ "" && last = "" then some first
  else if last ≠ "" && first = "" then some last
  else if first ≠ "" then some (pyStrip (first ++ " " ++ last))
  else fallback

/-- First/last/display-name resolution from a player record (branch (b)),
falling through to the allow-list when both names are blank. -/
def extractNameFields (pl : Json) (titleS : String) : Except String (Option String) :=
  match pyGetD pl "first_name" (.str "") with
  | .error e => .error e
  | .ok fJ =>
    match pyAsStr fJ with
    | .error e => .error e
    | .ok fS =>
      match pyGetD pl "last_name" (.str "") with
      | .error e => .error e
      | .ok lJ =>
        match pyAsStr lJ with
        | .error e => .error e
        | .ok lS =>
          .ok (nameFromFields (pyStrip fS) (pyStrip lS) (knownPlayerIn titleS))

/-- Player-name resolution `extract_player_name(title, appearance_stat,
appearances, players)`; `none` means the entry is dropped. -/
def extractPlayerName (titleS : String) (appearanceStat : Json)
    (appearances players : List (Json × Json)) : Except String (Option String) :=
  match dotaTitleName titleS with
  | some n => .ok (some n)
  | none =>
    match pyGetD appearanceStat "appearance_id" .null with
    | .error e => .error e
    | .ok aid =>
      if pyTruthy aid then
        if !pyHashable aid then .error "TypeError: unhashable"
        else
          match mapFind appearances aid with
          | some app =>
            match pyGetD app "player_id" .null with
            | .error e => .error e
            | .ok pid =>
              if pyTruthy pid then
                if !pyHashable pid then .error "TypeError: unhashable"
                else
                  match mapFind players pid with
                  | some pl => extractNameFields pl titleS
                  | none => .ok (knownPlayerIn titleS)
              else .ok (knownPlayerIn titleS)
          | none => .ok (knownPlayerIn titleS)
      else .ok (knownPlayerIn titleS)

/-! ## `extract_match_info` (the two `re.search` patterns) -/

/-- Character class `[A-Za-z0-9.\s]` of the match-title patterns. -/
def vsClassChar (c : Char) : Bool :=
  c.isAlpha || ('0' ≤ c && c ≤ '9') || c == '.' || isPySpace c

/-- Separator `\s+vs\.?\s+` (case-insensitive), returning the rest after
the separator.  Greedy `\s+` runs are maximal, which is exact here because
`v` and the class-2 characters are never whitespace. -/
def sepVs (cs : List Char) : Option (List Char) :=
  let w := (cs.takeWhile isPySpace).length
  if w = 0 then none
  else
    match cs.drop w with
    | v :: s :: rest =>
      if pyLowerChar v == 'v' && pyLowerChar s == 's' then
        match rest with
        | '.' :: r2 =>
          let w2 := (r2.takeWhile isPySpace).length
          if w2 = 0 then none else some (r2.drop w2)
        | r2 =>
          let w2 := (r2.takeWhile isPySpace).length
          if w2 = 0 then none else some (r2.drop w2)
      else none
    | _ => none

/-- Separator `\s+@\s+`. -/
def sepAt (cs : List Char) : Option (List Char) :=
  let w := (cs.takeWhile isPySpace).length
  if w = 0 then none
  else
    match cs.drop w with
    | '@' :: r2 =>
      let w2 := (r2.takeWhile isPySpace).length
      if w2 = 0 then none else some (r2.drop w2)
    | _ => none

/-- Greedy backtracking over the first group's length (longest first, as
the regex engine prefers); the second group is the maximal class run. -/
def tryLen (sep : List Char → Option (List Char)) (cs : List Char) : ℕ → Option (List Char × List Char)
  | 0 => none
  | L + 1 =>
    match sep (cs.drop (L + 1)) with
    | some rest =>
      let g2n := (rest.takeWhile vsClassChar).length
      if g2n = 0 then tryLen sep cs L
      else some (cs.take (L + 1), rest.take g2n)
    | none => tryLen sep cs L

/-- Leftmost search, as `re.search`: try every start position from the
left; at each, group 1 takes the longest class run that still lets the
rest of the pattern match. -/
def searchPairs (sep : List Char → Option (List Char)) : List Char → Option (String × String)
  | [] => none
  | c :: t =>
    match tryLen sep (c :: t) ((c :: t).takeWhile vsClassChar).length with
    | some (g1, g2) => some (⟨g1⟩, ⟨g2⟩)
    | none => searchPairs sep t

/-- Team/opponent extraction result. -/
structure MatchInfo where
  team : String
  opponent : String
  match_title : String
deriving DecidableEq

/-- Match metadata `extract_match_info(title)`: first pattern
(`A vs B`) then second (`A @ B`); no match leaves team/opponent empty and
the title opaque. -/
def extractMatchInfo (title : String) : MatchInfo :=
  match searchPairs sepVs title.data with
  | some g =>
    ⟨pyStrip g.1, pyStrip g.2, pyStrip g.1 ++ " vs " ++ pyStrip g.2⟩
  | none =>
    match searchPairs sepAt title.data with
    | some g =>
      ⟨pyStrip g.1, pyStrip g.2, pyStrip g.1 ++ " vs " ++ pyStrip g.2⟩
    | none => ⟨"", "", title⟩

/-! ## `parse_dota_props` -/

/-- Canonical prop record produced by the normalizer. -/
structure RawProp where
  player : String
  team : String
  opponent : String
  match_title : String
  stat_type : String
  line : ℚ
  over_odds : String
  under_odds : String
deriving DecidableEq

/-- Stat-type resolution: first table key that is a substring of the
lowercased raw stat. -/
def statLookup (statRaw : String) : Option String :=
  (DOTA_STAT_MAP.find? (fun kv => pyIn kv.1 statRaw)).map (fun kv => kv.2)

/-- One step of the odds-option loop: options with payout multiplier
farther than 0.1 from 1.0 are skipped; `higher`/`over` choices set the
over odds, `lower`/`under` the under odds, defaulting to `-110` juice when
the price is absent. -/
def oddsStep (st : String × String) (opt : Json) : Except String (String × String) :=
  match pyGetD opt "choice" (.str "") with
  | .error e => .error e
  | .ok cJ =>
    match pyAsStr cJ with
    | .error e => .error e
    | .ok cS =>
      let choice := pyLower cS
      match pyGetD opt "american_price" .null with
      | .error e => .error e
      | .ok american =>
        match pyGetD opt "payout_multiplier" (.num 1) with
        | .error e => .error e
        | .ok payout =>
          match (if pyTruthy payout then
                   match pyFloatJ payout with
                   | .error e => .error e
                   | .ok pf => .ok (decide (|pf - 1| > 1/10))
                 else .ok false : Except String Bool) with
          | .error e => .error e
          | .ok true => .ok st
          | .ok false =>
            if choice == "higher" || choice == "over" then
              .ok (if pyTruthy american then pyStrJ american else "-110", st.2)
            else if choice == "lower" || choice == "under" then
              .ok (st.1, if pyTruthy american then pyStrJ american else "-110")
            else .ok st

/-- The odds-option loop over a line entry's options. -/
def oddsFold (st : String × String) : List Json → Except String (String × String)
  | [] => .ok st
  | o :: t =>
    match oddsStep st o with
    | .error e => .error e
    | .ok st2 => oddsFold st2 t

/-- Body of the per-entry loop of `parse_dota_props`: `.ok none` models
`continue` (entry filtered out), `.error` a Python exception raised inside
the `try` block (the caller skips the entry). -/
def perLineBody (appearances players : List (Json × Json)) (line : Json) :
    Except String (Option RawProp) :=
  match pyGetD line "over_under" (.obj []) with
  | .error e => .error e
  | .ok overUnder =>
    match pyGetD overUnder "title" (.str "") with
    | .error e => .error e
    | .ok titleJ =>
      match pyAsStr titleJ with
      | .error e => .error e
      | .ok titleS =>
        match isDotaProp titleS overUnder with
        | .error e => .error e
        | .ok false => .ok none
        | .ok true =>
          match pyGetD overUnder "appearance_stat" (.obj []) with
          | .error e => .error e
          | .ok appearanceStat =>
            match pyGetD appearanceStat "stat" (.str "") with
            | .error e => .error e
            | .ok statJ =>
              match pyAsStr statJ with
              | .error e => .error e
              | .ok statS =>
                match statLookup (pyLower statS) with
                | none => .ok none
                | some statType =>
                  match pyGetD line "stat_value" (.num 0) with
                  | .error e => .error e
                  | .ok sv1 =>
                    match pyGetD overUnder "stat_value" (.num 0) with
                    | .error e => .error e
                    | .ok sv2 =>
                      match pyFloatJ (pyOr sv1 sv2) with
                      | .error e => .error e
                      | .ok lineValue =>
                        if lineValue ≤ 0 then .ok none
                        else
                          match extractPlayerName titleS appearanceStat appearances players with
                          | .error e => .error e
                          | .ok none => .ok none
                          | .ok (some playerName) =>
                            let minfo := extractMatchInfo titleS
                            match pyGetD line "options" (.arr []) with
                            | .error e => .error e
                            | .ok optsJ =>
                              match pyIter optsJ with
                              | .error e => .error e
                              | .ok opts =>
                                match oddsFold ("-110", "-110") opts with
                                | .error e => .error e
                                | .ok odds =>
                                  .ok (some ⟨playerName, minfo.team, minfo.opponent,
                                             minfo.match_title, statType, lineValue,
                                             odds.1, odds.2⟩)

/-- Dict overwrite-update for the id-indexed maps (later duplicate ids
overwrite earlier ones, as in a Python dict comprehension). -/
def mapSet (m : List (Json × Json)) (k v : Json) : List (Json × Json) :=
  match m with
  | [] => [(k, v)]
  | kv0 :: t => if kv0.1 == k then (k, v) :: t else kv0 :: mapSet t k v

/-- Accumulating loop of the id-map comprehension `{a['id']: a for a in xs}`;
raises outside any `try` when an element is not a dict with a hashable
`id`. -/
def buildIdMapAux (m : List (Json × Json)) : List Json → Except String (List (Json × Json))
  | [] => .ok m
  | a :: t =>
    match a with
    | .obj kvs =>
      match kvs.find? (fun kv => kv.1 == "id") with
      | some kv =>
        if pyHashable kv.2 then buildIdMapAux (mapSet m kv.2 a) t
        else .error "TypeError: unhashable id"
      | none => .error "KeyError: id"
    | _ => .error "TypeError: not subscriptable"

/-- The id-map comprehension over a raw collection. -/
def buildIdMap (j : Json) : Except String (List (Json × Json)) :=
  match pyIter j with
  | .error e => .error e
  | .ok xs => buildIdMapAux [] xs

/-- The normalizer `parse_dota_props(data)`.  Errors of the id-map
construction and of the line iteration escape (they sit outside the
per-entry `try` in the source); per-entry errors are swallowed and the
entry is skipped. -/
def parseDotaProps (data : Json) : Except String (List RawProp) :=
  if pyFalsy data then .ok []
  else
    match pyGetD data "over_under_lines" (.arr []) with
    | .error e => .error e
    | .ok linesJ =>
      match pyGetD data "appearances" (.arr []) with
      | .error e => .error e
      | .ok appsJ =>
        match buildIdMap appsJ with
        | .error e => .error e
        | .ok appearances =>
          match pyGetD data "players" (.arr []) with
          | .error e => .error e
          | .ok playersJ =>
            match buildIdMap playersJ with
            | .error e => .error e
            | .ok players =>
              match pyIter linesJ with
              | .error e => .error e
              | .ok lines =>
                .ok (lines.filterMap (fun l =>
                  match perLineBody appearances players l with
                  | .ok r => r
                  | .error _ => none))

/-! ## Prediction engine (`generate_prediction`, `dota_live_system.py`) -/

/-- Player-averages row as produced by `get_player_averages()`: every key
is present, but a value may be SQL `NULL` (`none`); arithmetic on a `NULL`
value raises `TypeError`. -/
structure PlayerAverages where
  avg_kills : Option ℚ
  last_5_kills : Option ℚ
  last_10_kills : Option ℚ
  avg_fantasy : Option ℚ
  last_5_fantasy : Option ℚ
  last_10_fantasy : Option ℚ

/-- The read-only averages provider (`player_avgs` dict). -/
def AvgsMap := String → Option PlayerAverages

/-- Baseline selection of `generate_prediction`: kill and fantasy stats
use the recent 5-game average, assists derive from the kill average times
1.2, anything else passes the line through; an unknown player also passes
the line through.  `none` marks the `TypeError` case of a `NULL` field. -/
def baselineOf (player statType : String) (line : ℚ) (avgs : AvgsMap) : Option ℚ :=
  match avgs player with
  | none => some line
  | some a =>
    if pyIn "Kills" statType then a.last_5_kills
    else if pyIn "Fantasy" statType then a.last_5_fantasy
    else if pyIn "Assists" statType then a.avg_kills.map (fun k => k * (6/5))
    else some line

/-- Prediction output record (the dict returned by `generate_prediction`
and by the dashboard engine's `predict`). -/
structure PredOut where
  prediction : ℚ
  edge : ℚ
  pick : String
  confidence : ℚ
  ev : ℚ
deriving DecidableEq

/-- The pre-rounding edge percentage of `generate_prediction`:
`(prediction − line) / line × 100`, and 0 when `line ≤ 0`. -/
def rawEdge (player statType : String) (line : ℚ) (avgs : AvgsMap) : ℚ :=
  match baselineOf player statType line avgs with
  | none => 0
  | some prediction => if 0 < line then (prediction - line) / line * 100 else 0

/-- The core engine `generate_prediction(player, stat_type, line,
player_avgs, models_data)`; the pickled models are loaded but never used
by the prediction formula, so they do not appear here. -/
def generatePrediction (player statType : String) (line : ℚ) (avgs : AvgsMap) :
    Except String PredOut :=
  match baselineOf player statType line avgs with
  | none => .error "TypeError: unsupported operand"
  | some prediction =>
    let edge : ℚ := if 0 < line then (prediction - line) / line * 100 else 0
    let pce : String × ℚ × ℚ :=
      if |edge| < MIN_EDGE then ("PASS", 50, 0)
      else if 0 < edge then ("OVER", min (50 + |edge| * 2) 95, |edge| * (5/2))
      else ("UNDER", min (50 + |edge| * 2) 95, |edge| * (5/2))
    .ok ⟨pyRound1 prediction, pyRound1 edge, pce.1, ((pyRound0 pce.2.1 : ℤ) : ℚ), pyRound1 pce.2.2⟩

/-- Merged prop-plus-prediction dict (`{**prop, **pred}` in
`run_predictions`). -/
structure PredFull where
  player : String
  team : String
  opponent : String
  match_title : String
  stat_type : String
  line : ℚ
  over_odds : String
  under_odds : String
  prediction : ℚ
  edge : ℚ
  pick : String
  confidence : ℚ
  ev : ℚ
deriving DecidableEq

/-- Merge of a prop with its prediction output. -/
def mkPredFull (p : RawProp) (o : PredOut) : PredFull :=
  ⟨p.player, p.team, p.opponent, p.match_title, p.stat_type, p.line,
   p.over_odds, p.under_odds, o.prediction, o.edge, o.pick, o.confidence, o.ev⟩

/-- The loop of `run_predictions(props)`; a `TypeError` inside
`generate_prediction` is not caught there and aborts the run. -/
def runPredictionsE (avgs : AvgsMap) : List RawProp → Except String (List PredFull)
  | [] => .ok []
  | p :: t =>
    match generatePrediction p.player p.stat_type p.line avgs with
    | .error e => .error e
    | .ok o =>
      match runPredictionsE avgs t with
      | .error e => .error e
      | .ok rest => .ok (mkPredFull p o :: rest)

/-! ## Dashboard engine (`DotaPredictionEngine.predict`, `app.py`) -/

/-- The in-memory `player_stats` table of the dashboard engine:
`(avg_kills, avg_fantasy, variance)` per player. -/
def dashPlayerStats : List (String × ℚ × ℚ × ℚ) :=
  [("Crystallis", 5.2, 28.5, 2.1), ("Yuma", 4.8, 26.3, 1.8),
   ("Ame", 6.1, 31.2, 2.3), ("skiter", 5.5, 29.7, 1.9),
   ("Pure", 5.9, 30.1, 2.0), ("Watson", 4.2, 24.8, 1.7),
   ("flyfly", 4.6, 25.9, 2.2), ("33", 4.4, 27.1, 1.6),
   ("Topson", 5.7, 29.3, 2.4)]

/-- The dashboard engine `DotaPredictionEngine.predict(player_name,
stat_type, line)`.  The date-seeded `random.gauss(0, variance * 0.3)`
sample is passed in explicitly as `adjustment` (a seeded RNG over floats
has no shallow embedding); everything downstream of the sample is
translated from the source. -/
def dashPredict (playerName statType : String) (line : ℚ) (adjustment : ℚ) : PredOut :=
  let pd : ℚ × ℚ × ℚ :=
    ((dashPlayerStats.find? (fun kv => kv.1 == playerName)).map (fun kv => kv.2)).getD
      (5, 28, 2)
  let base : ℚ :=
    if pyIn "Kill" statType then pd.1
    else if pyIn "Fantasy" statType then pd.2.1
    else line
  let prediction := base + adjustment
  let edge : ℚ := if 0 < line then (prediction - line) / line * 100 else 0
  let pce : String × ℚ × ℚ :=
    if |edge| < 3 then ("PASS", 50, 0)
    else
      let confidence := min 75 (55 + |edge|)
      let ev := (confidence - 52.38) / 52.38 * 100
      (if 0 < edge then "OVER" else "UNDER", confidence, ev)
  ⟨pyRound1 prediction, pyRound1 edge, pce.1, ((pyRound0 pce.2.1 : ℤ) : ℚ), pyRound1 pce.2.2⟩

/-! ## Change detection (`detect_changes`) -/

/-- Append-only history row of `prop_history`. -/
structure HistRow where
  player : String
  stat_type : String
  line : ℚ
  timestamp : String
  prop_hash : String
deriving DecidableEq

/-- Content hash over `(player, stat_type, line)`: the md5 of
`f"{player}_{stat_type}_{line}"` is modelled as that key string itself
(equal strings always collide; distinct strings are assumed not to). -/
def propHash (player statType : String) (line : ℚ) : String :=
  player ++ "_" ++ statType ++ "_" ++ floatRepr line

/-- A prop classified CHANGED, carrying the prior line (`old_line`). -/
structure ChangedProp where
  prop : RawProp
  old_line : ℚ
deriving DecidableEq

/-- The row returned by `SELECT line FROM prop_history WHERE player = ? AND
stat_type = ? ORDER BY timestamp DESC LIMIT 1`: the scan keeps the row
with the lexicographically greatest ISO timestamp (the first such row on a
tie, where SQLite's choice is unspecified). -/
def latestStep (acc : Option HistRow) (r : HistRow) : Option HistRow :=
  match acc with
  | none => some r
  | some b => if b.timestamp < r.timestamp then some r else some b

/-- See `latestStep`: the scan over the candidate rows. -/
def latestRow (rows : List HistRow) : Option HistRow :=
  rows.foldl latestStep none

/-- One iteration of the `detect_changes` loop over
`(new_props, changed_props, history)`. -/
def detectStep (ts : String) (st : List RawProp × List ChangedProp × List HistRow)
    (p : RawProp) : List RawProp × List ChangedProp × List HistRow :=
  let hash := propHash p.player p.stat_type p.line
  if st.2.2.any (fun r => r.prop_hash == hash) then st
  else
    let matching := st.2.2.filter (fun r => r.player == p.player && r.stat_type == p.stat_type)
    let newRow : HistRow := ⟨p.player, p.stat_type, p.line, ts, hash⟩
    match latestRow matching with
    | some r =>
      if r.line ≠ p.line then (st.1, st.2.1 ++ [⟨p, r.line⟩], st.2.2 ++ [newRow])
      else (st.1 ++ [p], st.2.1, st.2.2 ++ [newRow])
    | none => (st.1 ++ [p], st.2.1, st.2.2 ++ [newRow])

/-- `detect_changes(props)` against a history store, returning
`(new_props, changed_props, updated history)`; the per-insert
`datetime.now()` timestamp is passed in as `ts` (one call shares it). -/
def detectChanges (props : List RawProp) (hist : List HistRow) (ts : String) :
    List RawProp × List ChangedProp × List HistRow :=
  props.foldl (detectStep ts) ([], [], hist)

/-! ## Store (`save_props_and_predictions`) -/

/-- Row of the `dota_props` table (the unused `game_time` column stays
`NULL` and is omitted). -/
structure PropsRow where
  player : String
  team : String
  opponent : String
  match_title : String
  stat_type : String
  line : ℚ
  over_odds : String
  under_odds : String
  scraped_at : String
deriving DecidableEq

/-- Row of the `predictions` table. -/
structure PredRow where
  player : String
  stat_type : String
  line : ℚ
  prediction : ℚ
  edge : ℚ
  pick_direction : String
  confidence : ℚ
  ev : ℚ
  created_at : String
deriving DecidableEq

/-- The two current-snapshot tables of `dota_props.db`. -/
structure PropsDb where
  props : List PropsRow
  preds : List PredRow
deriving DecidableEq

/-- Conversion of a normalized prop to its table row. -/
def rowOfProp (p : RawProp) (ts : String) : PropsRow :=
  ⟨p.player, p.team, p.opponent, p.match_title, p.stat_type, p.line,
   p.over_odds, p.under_odds, ts⟩

/-- Conversion of a merged prediction dict to its table row. -/
def rowOfPred (q : PredFull) (ts : String) : PredRow :=
  ⟨q.player, q.stat_type, q.line, q.prediction, q.edge, q.pick, q.confidence, q.ev, ts⟩

/-- `INSERT OR REPLACE` against `UNIQUE(player, stat_type, line)`: the
conflicting row is deleted and the new row appended. -/
def insertPropRow (t : List PropsRow) (r : PropsRow) : List PropsRow :=
  t.filter (fun x => !(x.player == r.player && x.stat_type == r.stat_type && x.line == r.line))
    ++ [r]

/-- `INSERT OR REPLACE` into `predictions`. -/
def insertPredRow (t : List PredRow) (r : PredRow) : List PredRow :=
  t.filter (fun x => !(x.player == r.player && x.stat_type == r.stat_type && x.line == r.line))
    ++ [r]

/-- `save_props_and_predictions(props, predictions)`: `DELETE FROM` both
current-snapshot tables, then insert every row; the shared
`datetime.now()` timestamp is `ts`.  The previous state `db` is discarded
entirely. -/
def savePropsAndPredictions (props : List RawProp) (preds : List PredFull) (ts : String)
    (_db : PropsDb) : PropsDb :=
  ⟨props.foldl (fun t p => insertPropRow t (rowOfProp p ts)) [],
   preds.foldl (fun t q => insertPredRow t (rowOfPred q ts)) []⟩

/-- Modelled from the spec: the snapshot read operation `readSnapshot()`
of §4.5 (return the current props and predictions tables).  The
repository's dashboard reader (`load_predictions` in
`src/web/dota_dashboard.py`) reads a database written by
`scripts/dota_predictions.py`, a script that is not part of the sources;
against the tables modelled here the spec's read operation is a plain
dump of both tables. -/
def readSnapshot (db : PropsDb) : List PropsRow × List PredRow :=
  (db.props, db.preds)

/-! ## Alert dispatcher (`post_to_discord`) -/

/-- The dispatch filter: picks that are not PASS and whose absolute edge
is at least `MIN_EDGE`. -/
def goodPicksOf (preds : List PredFull) : List PredFull :=
  preds.filter (fun p => p.pick != "PASS" && decide (MIN_EDGE ≤ |p.edge|))

/-- Stable insertion step for the descending sort by absolute edge
(`good_picks.sort(key=λx: abs(x["edge"]), reverse=True)`; Python's sort is
stable, so any stable descending sort produces the same list). -/
def insertByEdge (x : PredFull) : List PredFull → List PredFull
  | [] => [x]
  | y :: t => if |y.edge| < |x.edge| then x :: y :: t else y :: insertByEdge x t

/-- Stable descending sort by absolute edge. -/
def sortByEdgeDesc : List PredFull → List PredFull
  | [] => []
  | x :: t => insertByEdge x (sortByEdgeDesc t)

/-- Fixed-point formatting `f"{q:.1f}"`. -/
def fmt1 (q : ℚ) : String :=
  let n : ℤ := pyRound0 (q * 10)
  (if n < 0 then "-" else "") ++ toString (n.natAbs / 10) ++ "." ++ toString (n.natAbs % 10)

/-- Signed fixed-point formatting `f"{q:+.1f}"`. -/
def fmtSigned1 (q : ℚ) : String :=
  if pyRound0 (q * 10) < 0 then fmt1 q else "+" ++ fmt1 q

/-- One numbered pick block of the alert description. -/
def pickBlock (i : ℕ) (p : PredFull) : String :=
  let emoji := if p.pick == "OVER" then String.singleton (Char.ofNat 0x1F7E2)
               else String.singleton (Char.ofNat 0x1F534)
  "**" ++ toString i ++ ". " ++ p.player ++ "**\n" ++
  (if p.match_title != "" then "_" ++ p.match_title ++ "_\n" else "") ++
  p.stat_type ++ " " ++ floatRepr p.line ++ "\n" ++
  emoji ++ " " ++ p.pick ++ " | Pred: " ++ fmt1 p.prediction ++
  " | Edge: " ++ fmtSigned1 p.edge ++ "% | EV: +" ++ fmt1 p.ev ++ "%\n\n"

/-- The enumerated top-K pick blocks. -/
def pickBlocks (i : ℕ) : List PredFull → String
  | [] => ""
  | p :: t => pickBlock i p ++ pickBlocks (i + 1) t

/-- The webhook embed payload. -/
structure DiscordPayload where
  title : String
  description : String
  color : ℕ
  timestamp : String
  footerText : String
  username : String
deriving DecidableEq

/-- `post_to_discord(predictions)`: `none` means the function returned
without issuing any HTTP POST (the filtered set was empty); `some payload`
is the embed handed to `requests.post`.  `now` stands for
`datetime.now().isoformat()`. -/
def postToDiscord (preds : List PredFull) (now : String) : Option DiscordPayload :=
  let good := goodPicksOf preds
  if good.isEmpty then none
  else
    let sorted := sortByEdgeDesc good
    let desc :=
      "**" ++ toString good.length ++ " +EV DOTA 2 Props** - Min " ++ floatRepr MIN_EDGE
        ++ "% edge\n\n"
      ++ pickBlocks 1 (sorted.take 10)
      ++ (if 10 < good.length then
            "_...and " ++ toString (good.length - 10) ++ " more picks_\n"
          else "")
    some ⟨String.singleton (Char.ofNat 0x1F3AE) ++ " DOTA 2 +EV Props", desc, 0xC9A961,
          now, "Turtle +EV " ++ String.singleton (Char.ofNat 0x2022)
            ++ " DOTA 2 Live Predictions", "Turtle +EV Bot"⟩

/-! ## Orchestrator (`run_once` and one iteration of `monitor_loop`) -/

/-- Observable effects of one cycle, in program order: the feed fetch, an
uncaught exception (process abort), a `detect_changes` call, the snapshot
persist, and an actual webhook HTTP POST. -/
inductive Event where
  | fetch : Event
  | crash : Event
  | classify : Event
  | persist : Event
  | httpPost : Event
deriving DecidableEq

/-- Effect trace of `run_once()`: fetch, then — when data arrived, parsing
succeeded and props are non-empty — predict, persist, and hand the
predictions to `post_to_discord`, which posts exactly when the filtered
pick set is non-empty.  `run_once` never calls `detect_changes`.  The
fetch result is passed in as `data` (`none` models all endpoints
failing). -/
def runOnceEvents (data : Option Json) (avgs : AvgsMap) : List Event :=
  match data with
  | none => [.fetch]
  | some d =>
    if pyFalsy d then [.fetch]
    else
      match parseDotaProps d with
      | .error _ => [.fetch, .crash]
      | .ok props =>
        if props.isEmpty then [.fetch]
        else
          match runPredictionsE avgs props with
          | .error _ => [.fetch, .crash]
          | .ok preds =>
            [.fetch, .persist] ++ (if (goodPicksOf preds).isEmpty then [] else [.httpPost])

/-- The pick set `run_once` hands to the dispatcher (empty whenever the
cycle stops early). -/
def runOnceGoodPicks (data : Option Json) (avgs : AvgsMap) : List PredFull :=
  match data with
  | none => []
  | some d =>
    if pyFalsy d then []
    else
      match parseDotaProps d with
      | .error _ => []
      | .ok props =>
        if props.isEmpty then []
        else
          match runPredictionsE avgs props with
          | .error _ => []
          | .ok preds => goodPicksOf preds

/-- Effect trace of one iteration of `monitor_loop`: fetch, then — for a
non-empty parse — `detect_changes` (before the persist), predictions,
persist, and a webhook POST only when the iteration found new or changed
props and the filtered pick set is non-empty. -/
def monitorIterEvents (data : Option Json) (avgs : AvgsMap) (hist : List HistRow)
    (ts : String) : List Event :=
  match data with
  | none => [.fetch]
  | some d =>
    if pyFalsy d then [.fetch]
    else
      match parseDotaProps d with
      | .error _ => [.fetch, .crash]
      | .ok props =>
        if props.isEmpty then [.fetch]
        else
          let nc := detectChanges props hist ts
          match runPredictionsE avgs props with
          | .error _ => [.fetch, .classify, .crash]
          | .ok preds =>
            [.fetch, .classify, .persist] ++
              (if nc.1.isEmpty && nc.2.1.isEmpty then []
               else if (goodPicksOf preds).isEmpty then [] else [.httpPost])

/-- Number of props classified NEW or CHANGED by the iteration. -/
def monitorIterChanges (data : Option Json) (_avgs : AvgsMap) (hist : List HistRow)
    (ts : String) : ℕ :=
  match data with
  | none => 0
  | some d =>
    if pyFalsy d then 0
    else
      match parseDotaProps d with
      | .error _ => 0
      | .ok props =>
        if props.isEmpty then 0
        else
          let nc := detectChanges props hist ts
          nc.1.length + nc.2.1.length

/-- The qualifying pick set of one monitor iteration (empty whenever the
iteration stops early or the prediction run aborts). -/
def monitorIterGoodPicks (data : Option Json) (avgs : AvgsMap) (_hist : List HistRow)
    (_ts : String) : List PredFull :=
  match data with
  | none => []
  | some d =>
    if pyFalsy d then []
    else
      match parseDotaProps d with
      | .error _ => []
      | .ok props =>
        if props.isEmpty then []
        else
          match runPredictionsE avgs props with
          | .error _ => []
          | .ok preds => goodPicksOf preds

/-! ## Helper lemmas about the rounding model -/

/-- The rounded value never drops below the floor. -/
lemma pyRound0_cases (q : ℚ) : pyRound0 q = ⌊q⌋ ∨ pyRound0 q = ⌊q⌋ + 1 := by
  unfold pyRound0
  split_ifs <;> simp

/-- Monotone upper bound: a value at most an integer rounds to at most it. -/
lemma pyRound0_le (q : ℚ) (n : ℤ) (h : q ≤ n) : pyRound0 q ≤ n := by
  have hfl : ⌊q⌋ ≤ n := by
    have := Int.floor_mono h
    simpa using this
  unfold pyRound0
  split_ifs with h1 h2 h3
  · exact hfl
  · have hlt : ⌊q⌋ < n := by
      rcases lt_or_eq_of_le hfl with h' | h'
      · exact h'
      · exfalso
        rw [h'] at h2
        linarith
    omega
  · exact hfl
  · have hq : 2 * q = 2 * (⌊q⌋ : ℚ) + 1 := le_antisymm (not_lt.1 h2) (not_lt.1 h1)
    have hlt : ⌊q⌋ < n := by
      rcases lt_or_eq_of_le hfl with h' | h'
      · exact h'
      · exfalso
        rw [h'] at hq
        linarith
    omega

/-- Monotone lower bound: rounding never drops below an integer lower
bound. -/
lemma le_pyRound0 (q : ℚ) (n : ℤ) (h : (n : ℚ) ≤ q) : n ≤ pyRound0 q := by
  have hfl : n ≤ ⌊q⌋ := Int.le_floor.2 h
  rcases pyRound0_cases q with h' | h' <;> omega

/-- Nonnegative values round (to one decimal) to nonnegative values. -/
lemma pyRound1_nonneg (q : ℚ) (h : 0 ≤ q) : 0 ≤ pyRound1 q := by
  unfold pyRound1
  have h0 : (0 : ℤ) ≤ pyRound0 (q * 10) := le_pyRound0 _ 0 (by push_cast; linarith)
  have : (0 : ℚ) ≤ (pyRound0 (q * 10) : ℚ) := by exact_mod_cast h0
  linarith

/-- Values at least 7.5 round (to one decimal) to a positive value. -/
lemma pyRound1_pos (q : ℚ) (h : (15/2 : ℚ) ≤ q) : 0 < pyRound1 q := by
  unfold pyRound1
  have h0 : (75 : ℤ) ≤ pyRound0 (q * 10) := le_pyRound0 _ 75 (by push_cast; linarith)
  have : (75 : ℚ) ≤ (pyRound0 (q * 10) : ℚ) := by exact_mod_cast h0
  linarith

/-! ## Concrete inputs used by the witnesses -/

/-- Averages provider with `last_5_kills = 5.1` for Larl (C4's worked
example: line 5.0, prediction 5.1). -/
def avgsC4 : AvgsMap := fun p =>
  if p = "Larl" then some ⟨some 5, some (51/10), some 5, some 30, some 30, some 30⟩ else none

/-- Averages provider with `last_5_kills = 4.5` for Collapse (C5's worked
example: line 5.5, prediction 4.5). -/
def avgsC5 : AvgsMap := fun p =>
  if p = "Collapse" then some ⟨some 5, some (9/2), some 5, some 30, some 30, some 30⟩ else none

/-- Averages provider with `last_5_kills = 4.4` for Yatoro (C3: the same
10% edge in both engines). -/
def avgsC3 : AvgsMap := fun p =>
  if p = "Yatoro" then some ⟨some 4, some (22/5), some 4, some 25, some 25, some 25⟩ else none

/-! ## C4 — decision policy of `generate_prediction` -/

/-- C4: for every prediction input with `line > 0`, an absolute raw edge
below `MIN_EDGE` (3.0) yields pick PASS with confidence 50 and EV 0, a
positive raw edge at least `MIN_EDGE` yields OVER, a negative one UNDER;
in particular line 5.0 with prediction 5.1 gives edge 2.0%, PASS, EV 0. -/
theorem c4_decision_policy (player statType : String) (line : ℚ) (avgs : AvgsMap)
    (out : PredOut) (hl : 0 < line)
    (hok : generatePrediction player statType line avgs = .ok out) :
    ((|rawEdge player statType line avgs| < MIN_EDGE →
        out.pick = "PASS" ∧ out.confidence = 50 ∧ out.ev = 0) ∧
      (0 < rawEdge player statType line avgs →
        MIN_EDGE ≤ |rawEdge player statType line avgs| → out.pick = "OVER") ∧
      (rawEdge player statType line avgs < 0 →
        MIN_EDGE ≤ |rawEdge player statType line avgs| → out.pick = "UNDER")) ∧
    generatePrediction "Larl" "Kills" 5 avgsC4 = .ok ⟨51/10, 2, "PASS", 50, 0⟩ := by
  constructor
  · cases hb : baselineOf player statType line avgs with
    | none => simp [generatePrediction, hb] at hok
    | some pred =>
      have hE : rawEdge player statType line avgs = (pred - line) / line * 100 := by
        simp [rawEdge, hb, if_pos hl]
      simp only [generatePrediction, hb, if_pos hl] at hok
      rw [hE]
      split_ifs at hok with h1 h2
      · simp only [Except.ok.injEq] at hok
        subst hok
        refine ⟨fun _ => ⟨rfl, ?_, ?_⟩, fun hpos hge => ?_, fun hneg hge => ?_⟩
        · show ((pyRound0 (50 : ℚ) : ℤ) : ℚ) = 50
          norm_num [pyRound0]
        · show pyRound1 0 = 0
          norm_num [pyRound1, pyRound0]
        · exact absurd hge (not_le.2 h1)
        · exact absurd hge (not_le.2 h1)
      · simp only [Except.ok.injEq] at hok
        subst hok
        refine ⟨fun hlt => absurd hlt h1, fun _ _ => rfl, fun hneg _ => absurd h2 (by linarith)⟩
      · simp only [Except.ok.injEq] at hok
        subst hok
        refine ⟨fun hlt => absurd hlt h1, fun hpos _ => absurd hpos h2, fun _ _ => rfl⟩
  · norm_num +decide [generatePrediction, baselineOf, avgsC4, pyIn, MIN_EDGE, pyRound1, pyRound0, abs_of_nonneg, abs_of_nonpos]

/-- Witness for C4 at the concrete worked example. -/
theorem c4_decision_policy_witness :
    generatePrediction "Larl" "Kills" 5 avgsC4 = .ok ⟨51/10, 2, "PASS", 50, 0⟩ :=
  (c4_decision_policy "Larl" "Kills" 5 avgsC4 ⟨51/10, 2, "PASS", 50, 0⟩ (by norm_num)
    (by norm_num +decide [generatePrediction, baselineOf, avgsC4, pyIn, MIN_EDGE, pyRound1,
      pyRound0, abs_of_nonneg, abs_of_nonpos])).2

/-! ## C5 — edge formula and rounding -/

/-- C5: the output edge is exactly `(prediction − line) / line × 100`
(0 whenever `line ≤ 0`) rounded to one decimal; line 5.5 with prediction
4.5 yields edge −18.2% and pick UNDER. -/
theorem c5_edge_formula (player statType : String) (line : ℚ) (avgs : AvgsMap)
    (out : PredOut)
    (hok : generatePrediction player statType line avgs = .ok out) :
    (out.edge = pyRound1 (rawEdge player statType line avgs) ∧
      (line ≤ 0 → rawEdge player statType line avgs = 0)) ∧
    generatePrediction "Collapse" "Kills" (11/2) avgsC5 =
      .ok ⟨9/2, -91/5, "UNDER", 86, 91/2⟩ := by
  refine ⟨⟨?_, ?_⟩, ?_⟩
  · cases hb : baselineOf player statType line avgs with
    | none => simp [generatePrediction, hb] at hok
    | some pred =>
      have hE : rawEdge player statType line avgs
          = if 0 < line then (pred - line) / line * 100 else 0 := by
        simp [rawEdge, hb]
      simp only [generatePrediction, hb] at hok
      rw [hE]
      split_ifs at hok ⊢ <;> (simp only [Except.ok.injEq] at hok; subst hok) <;> rfl
  · intro hle
    cases hb : baselineOf player statType line avgs with
    | none => simp [rawEdge, hb]
    | some pred => simp [rawEdge, hb, not_lt.2 hle]
  · norm_num +decide [generatePrediction, baselineOf, avgsC5, pyIn, MIN_EDGE, pyRound1, pyRound0, abs_of_nonneg, abs_of_nonpos]

/-- Witness for C5 at the concrete worked example. -/
theorem c5_edge_formula_witness :
    generatePrediction "Collapse" "Kills" (11/2) avgsC5 =
      .ok ⟨9/2, -91/5, "UNDER", 86, 91/2⟩ :=
  (c5_edge_formula "Collapse" "Kills" (11/2) avgsC5 ⟨9/2, -91/5, "UNDER", 86, 91/2⟩
    (by norm_num +decide [generatePrediction, baselineOf, avgsC5, pyIn, MIN_EDGE, pyRound1,
      pyRound0, abs_of_nonneg, abs_of_nonpos])).2

/-! ## C10 — output invariants of `generate_prediction` -/

/-- C10: for every prediction input with `line > 0` on which
`generate_prediction` returns (numeric averages fields), the pick is OVER,
UNDER or PASS, the confidence lies in [50, 95], the EV is nonnegative, and
the EV is zero exactly for PASS. -/
theorem c10_output_invariants (player statType : String) (line : ℚ) (avgs : AvgsMap)
    (out : PredOut) (hl : 0 < line)
    (hok : generatePrediction player statType line avgs = .ok out) :
    (out.pick = "OVER" ∨ out.pick = "UNDER" ∨ out.pick = "PASS") ∧
    50 ≤ out.confidence ∧ out.confidence ≤ 95 ∧
    0 ≤ out.ev ∧ (out.ev = 0 ↔ out.pick = "PASS") := by
  cases hb : baselineOf player statType line avgs with
  | none => simp [generatePrediction, hb] at hok
  | some pred =>
    simp only [generatePrediction, hb, if_pos hl] at hok
    split_ifs at hok with h1 h2
    · simp only [Except.ok.injEq] at hok
      subst hok
      refine ⟨Or.inr (Or.inr rfl), ?_, ?_, ?_, ?_⟩
      · show (50 : ℚ) ≤ ((pyRound0 (50 : ℚ) : ℤ) : ℚ)
        have := le_pyRound0 (50 : ℚ) 50 (by norm_num)
        exact_mod_cast this
      · show ((pyRound0 (50 : ℚ) : ℤ) : ℚ) ≤ 95
        have := pyRound0_le (50 : ℚ) 95 (by norm_num)
        exact_mod_cast this
      · show (0 : ℚ) ≤ pyRound1 0
        exact pyRound1_nonneg 0 le_rfl
      · constructor
        · intro _; rfl
        · intro _
          show pyRound1 0 = 0
          norm_num [pyRound1, pyRound0]
    · simp only [Except.ok.injEq] at hok
      subst hok
      have habs : MIN_EDGE ≤ |(pred - line) / line * 100| := not_lt.1 h1
      have h3 : (3 : ℚ) ≤ |(pred - line) / line * 100| := by
        simpa [MIN_EDGE] using habs
      refine ⟨Or.inl rfl, ?_, ?_, ?_, ?_⟩
      · show (50 : ℚ) ≤ ((pyRound0 (min (50 + |(pred - line) / line * 100| * 2) 95) : ℤ) : ℚ)
        have hmin : (50 : ℚ) ≤ min (50 + |(pred - line) / line * 100| * 2) 95 := by
          refine le_min (by linarith [abs_nonneg ((pred - line) / line * 100)]) (by norm_num)
        have := le_pyRound0 _ 50 hmin
        exact_mod_cast this
      · show ((pyRound0 (min (50 + |(pred - line) / line * 100| * 2) 95) : ℤ) : ℚ) ≤ 95
        have := pyRound0_le (min (50 + |(pred - line) / line * 100| * 2) 95) 95
          (min_le_right _ _)
        exact_mod_cast this
      · show (0 : ℚ) ≤ pyRound1 (|(pred - line) / line * 100| * (5/2))
        exact pyRound1_nonneg _ (by positivity)
      · have hpos : 0 < pyRound1 (|(pred - line) / line * 100| * (5/2)) :=
          pyRound1_pos _ (by linarith)
        constructor
        · intro h0
          exact absurd h0 (ne_of_gt hpos)
        · intro hpk
          simp at hpk
    · simp only [Except.ok.injEq] at hok
      subst hok
      have habs : MIN_EDGE ≤ |(pred - line) / line * 100| := not_lt.1 h1
      have h3 : (3 : ℚ) ≤ |(pred - line) / line * 100| := by
        simpa [MIN_EDGE] using habs
      refine ⟨Or.inr (Or.inl rfl), ?_, ?_, ?_, ?_⟩
      · show (50 : ℚ) ≤ ((pyRound0 (min (50 + |(pred - line) / line * 100| * 2) 95) : ℤ) : ℚ)
        have hmin : (50 : ℚ) ≤ min (50 + |(pred - line) / line * 100| * 2) 95 := by
          refine le_min (by linarith [abs_nonneg ((pred - line) / line * 100)]) (by norm_num)
        have := le_pyRound0 _ 50 hmin
        exact_mod_cast this
      · show ((pyRound0 (min (50 + |(pred - line) / line * 100| * 2) 95) : ℤ) : ℚ) ≤ 95
        have := pyRound0_le (min (50 + |(pred - line) / line * 100| * 2) 95) 95
          (min_le_right _ _)
        exact_mod_cast this
      · show (0 : ℚ) ≤ pyRound1 (|(pred - line) / line * 100| * (5/2))
        exact pyRound1_nonneg _ (by positivity)
      · have hpos : 0 < pyRound1 (|(pred - line) / line * 100| * (5/2)) :=
          pyRound1_pos _ (by linarith)
        constructor
        · intro h0
          exact absurd h0 (ne_of_gt hpos)
        · intro hpk
          simp at hpk

/-- Witness for C10 at a concrete input. -/
theorem c10_output_invariants_witness :
    let out : PredOut := ⟨51/10, 2, "PASS", 50, 0⟩
    (out.pick = "OVER" ∨ out.pick = "UNDER" ∨ out.pick = "PASS") ∧
    50 ≤ out.confidence ∧ out.confidence ≤ 95 ∧
    0 ≤ out.ev ∧ (out.ev = 0 ↔ out.pick = "PASS") :=
  c10_output_invariants "Larl" "Kills" 5 avgsC4 ⟨51/10, 2, "PASS", 50, 0⟩ (by norm_num)
    (by norm_num +decide [generatePrediction, baselineOf, avgsC4, pyIn, MIN_EDGE, pyRound1,
      pyRound0, abs_of_nonneg, abs_of_nonpos])

/-! ## C9 — no webhook call without qualifying picks -/

/-- C9: when no prediction has a non-PASS pick with absolute edge at least
`MIN_EDGE`, `post_to_discord` issues no HTTP POST and returns without
dispatching. -/
theorem c9_empty_filter_no_post (preds : List PredFull) (now : String)
    (h : ∀ p ∈ preds, p.pick = "PASS" ∨ |p.edge| < MIN_EDGE) :
    postToDiscord preds now = none := by
  have hg : goodPicksOf preds = [] := by
    rw [goodPicksOf, List.filter_eq_nil]
    intro p hp
    rcases h p hp with h1 | h1
    · simp [h1]
    · simp [not_le.2 h1]
  rw [postToDiscord, hg]
  rfl

/-- The PASS-only prediction used by the C9 witness. -/
def predC9 : PredFull :=
  ⟨"Miracle", "", "", "", "Kills", 5, "-110", "-110", 5, 0, "PASS", 50, 0⟩

/-- Witness for C9: a single PASS prediction triggers no webhook call. -/
theorem c9_empty_filter_no_post_witness :
    postToDiscord [predC9] "2025-01-01T00:00:00" = none :=
  c9_empty_filter_no_post [predC9] "2025-01-01T00:00:00"
    (by
      intro p hp
      rw [List.mem_singleton] at hp
      subst hp
      left
      rfl)

/-! ## C3 — the two EV formulas are incompatible -/

/-- C3: one concrete input family (baseline 4.4 vs line 4.0, stat Kills,
edge +10%, pick OVER in both engines) on which the core engine computes
EV 25.0 (`|edge| * 2.5`) while the dashboard engine computes EV 24.1
(`(confidence − 52.38) / 52.38 × 100`). -/
theorem c3_two_ev_formulas_diverge :
    generatePrediction "Yatoro" "Kills" 4 avgsC3 = .ok ⟨22/5, 10, "OVER", 70, 25⟩ ∧
    dashPredict "Crystallis" "Kills" 4 (-4/5) = ⟨22/5, 10, "OVER", 65, 241/10⟩ ∧
    (25 : ℚ) ≠ 241/10 := by
  refine ⟨?_, ?_, by norm_num⟩
  · norm_num +decide [generatePrediction, baselineOf, avgsC3, pyIn, MIN_EDGE, pyRound1, pyRound0, abs_of_nonneg, abs_of_nonpos]
  · norm_num +decide [dashPredict, dashPlayerStats, pyIn, pyRound1, pyRound0, abs_of_nonneg, abs_of_nonpos]

/-! ## Change-detection lemmas and claims C6, C7 -/

/-- Empty fractional parts print no digits. -/
lemma fracDigits_zero (n : ℕ) : fracDigits n 0 = "" := by
  cases n <;> simp [fracDigits]

/-- Python prints the float 4.5 as `"4.5"`. -/
lemma floatRepr_9_2 : floatRepr ((9:ℚ)/2) = "4.5" := by
  rw [floatRepr, if_neg (by norm_num : ¬ ((9:ℚ)/2 < 0)), floatReprNN]
  norm_num
  rw [fracDigits]
  norm_num
  rw [fracDigits_zero]
  decide

/-- Python prints the float 5.5 as `"5.5"`. -/
lemma floatRepr_11_2 : floatRepr ((11:ℚ)/2) = "5.5" := by
  rw [floatRepr, if_neg (by norm_num : ¬ ((11:ℚ)/2 < 0)), floatReprNN]
  norm_num
  rw [fracDigits]
  norm_num
  rw [fracDigits_zero]
  decide

/-- The history row inserted for a prop by `detect_changes`. -/
def insHist (p : RawProp) (ts : String) : HistRow :=
  ⟨p.player, p.stat_type, p.line, ts, propHash p.player p.stat_type p.line⟩

/-- Scanning for the latest row finds a strict maximum wherever it sits. -/
lemma foldl_latestStep_eq (r : HistRow) :
    ∀ (rows : List HistRow) (acc : Option HistRow),
      (∀ r' ∈ rows, r' ≠ r → r'.timestamp < r.timestamp) →
      ((r ∈ rows ∧ ∀ b, acc = some b → b.timestamp < r.timestamp) ∨ acc = some r) →
      rows.foldl latestStep acc = some r := by
  intro rows
  induction rows with
  | nil =>
    intro acc _ hd
    rcases hd with ⟨hmem, _⟩ | hacc
    · exact absurd hmem (List.not_mem_nil r)
    · simpa using hacc
  | cons x t ih =>
    intro acc hmax hd
    rw [List.foldl_cons]
    rcases hd with ⟨hmem, hacc⟩ | hacc
    · by_cases hx : x = r
      · subst hx
        refine ih _ (fun r' hr' hne => hmax r' (List.mem_cons_of_mem _ hr') hne) (Or.inr ?_)
        cases acc with
        | none => rfl
        | some b =>
          have hb := hacc b rfl
          simp [latestStep, hb]
      · have hxlt : x.timestamp < r.timestamp := hmax x (List.mem_cons_self _ _) hx
        have hmem' : r ∈ t := by
          rcases List.mem_cons.1 hmem with h | h
          · exact absurd h.symm hx
          · exact h
        refine ih _ (fun r' hr' hne => hmax r' (List.mem_cons_of_mem _ hr') hne)
          (Or.inl ⟨hmem', ?_⟩)
        intro b hb
        cases acc with
        | none =>
          simp only [latestStep] at hb
          cases hb
          exact hxlt
        | some b0 =>
          have hb0 := hacc b0 rfl
          by_cases hlt : b0.timestamp < x.timestamp
          · simp only [latestStep, if_pos hlt] at hb
            cases hb
            exact hxlt
          · simp only [latestStep, if_neg hlt] at hb
            cases hb
            exact hb0
    · subst hacc
      refine ih _ (fun r' hr' hne => hmax r' (List.mem_cons_of_mem _ hr') hne) (Or.inr ?_)
      by_cases hx : x = r
      · subst hx
        simp [latestStep, lt_irrefl]
      · have hxlt := hmax x (List.mem_cons_self _ _) hx
        simp [latestStep, lt_asymm hxlt]

/-- The modelled `ORDER BY timestamp DESC LIMIT 1` returns the row with
the strictly greatest timestamp. -/
lemma latestRow_eq_of_max (rows : List HistRow) (r : HistRow) (hr : r ∈ rows)
    (hmax : ∀ r' ∈ rows, r' ≠ r → r'.timestamp < r.timestamp) :
    latestRow rows = some r :=
  foldl_latestStep_eq r rows none hmax (Or.inl ⟨hr, by simp⟩)

/-- C6 counterexample data: a history row for player `Mind` and stat
`Control_Kills`, whose key string `Mind_Control_Kills_5.5` — and hence its
md5 — coincides with that of player `Mind_Control`, stat `Kills`. -/
def histC6 : List HistRow :=
  [⟨"Mind", "Control_Kills", 11/2, "2025-01-01T00:00:00",
    propHash "Mind" "Control_Kills" (11/2)⟩]

/-- The prop whose first classification the claim predicts to be NEW. -/
def propC6 : RawProp :=
  ⟨"Mind_Control", "", "", "", "Kills", 11/2, "-110", "-110"⟩

/-- C6 counterexample: the claim quantifies over every history store and
requires only that no record for the prop's (player, stat type) pair be
present; with the underscore-joined key string, the store `histC6` has no
(`Mind_Control`, `Kills`) record, yet the first classification of
`propC6` is not NEW (it is silently treated as already seen, nothing is
appended), because an unrelated record's key string collides. -/
theorem c6_counterexample :
    (∀ r ∈ histC6, ¬(r.player = propC6.player ∧ r.stat_type = propC6.stat_type)) ∧
    detectChanges [propC6] histC6 "2025-01-02T00:00:00" = ([], [], histC6) := by
  constructor
  · intro r hr
    rw [histC6, List.mem_singleton] at hr
    subst hr
    simp [propC6]
  · have hkey : propHash "Mind" "Control_Kills" (11/2)
        = propHash "Mind_Control" "Kills" (11/2) := by
      simp [propHash]
    simp [detectChanges, detectStep, histC6, propC6, hkey]

/-- C6 amended: if additionally no record in the store carries the prop's
content hash, then the first call classifies NEW and appends the hash, and
the second call (same store) classifies neither NEW nor CHANGED. -/
theorem c6_new_then_unchanged (p : RawProp) (hist : List HistRow) (ts1 ts2 : String)
    (hps : ∀ r ∈ hist, ¬(r.player = p.player ∧ r.stat_type = p.stat_type))
    (hh : ∀ r ∈ hist, r.prop_hash ≠ propHash p.player p.stat_type p.line) :
    detectChanges [p] hist ts1 = ([p], [], hist ++ [insHist p ts1]) ∧
    detectChanges [p] (hist ++ [insHist p ts1]) ts2 = ([], [], hist ++ [insHist p ts1]) := by
  have hany : hist.any (fun r => r.prop_hash == propHash p.player p.stat_type p.line)
      = false := by
    rw [List.any_eq_false]
    intro r hrm
    simpa using hh r hrm
  have hfil : hist.filter (fun r => r.player == p.player && r.stat_type == p.stat_type)
      = [] := by
    rw [List.filter_eq_nil]
    intro r hrm
    have := hps r hrm
    simp only [Bool.and_eq_true, beq_iff_eq]
    tauto
  constructor
  · simp [detectChanges, detectStep, hany, hfil, latestRow, insHist]
  · have hany2 : (hist ++ [insHist p ts1]).any
        (fun r => r.prop_hash == propHash p.player p.stat_type p.line) = true := by
      simp [insHist]
    simp [detectChanges, detectStep, hany2]

/-- Witness for the amended C6 on an empty history store. -/
theorem c6_new_then_unchanged_witness :
    detectChanges [propC6] [] "t1" = ([propC6], [], [insHist propC6 "t1"]) ∧
    detectChanges [propC6] ([] ++ [insHist propC6 "t1"]) "t2"
      = ([], [], [] ++ [insHist propC6 "t1"]) :=
  c6_new_then_unchanged propC6 [] "t1" "t2" (by simp) (by simp)

/-- C7: a prop whose (player, stat type) pair has prior history records
but whose content hash is unseen is classified CHANGED, with `old_line`
the line of the strictly most recent matching record, provided that
stored line differs from the new one. -/
theorem c7_changed_carries_old_line (p : RawProp) (hist : List HistRow) (ts : String)
    (r : HistRow)
    (hh : ∀ r' ∈ hist, r'.prop_hash ≠ propHash p.player p.stat_type p.line)
    (hr : r ∈ hist) (hrp : r.player = p.player) (hrs : r.stat_type = p.stat_type)
    (hmax : ∀ r' ∈ hist, r' ≠ r →
      (r'.player = p.player ∧ r'.stat_type = p.stat_type) → r'.timestamp < r.timestamp)
    (hne : r.line ≠ p.line) :
    detectChanges [p] hist ts = ([], [⟨p, r.line⟩], hist ++ [insHist p ts]) := by
  have hany : hist.any (fun r' => r'.prop_hash == propHash p.player p.stat_type p.line)
      = false := by
    rw [List.any_eq_false]
    intro r' hrm
    simpa using hh r' hrm
  have hlat : latestRow
      (hist.filter (fun r' => r'.player == p.player && r'.stat_type == p.stat_type))
      = some r := by
    apply latestRow_eq_of_max
    · rw [List.mem_filter]
      exact ⟨hr, by simp [hrp, hrs]⟩
    · intro r' hr' hner
      rw [List.mem_filter] at hr'
      refine hmax r' hr'.1 hner ?_
      have := hr'.2
      simp only [Bool.and_eq_true, beq_iff_eq] at this
      exact this
  simp [detectChanges, detectStep, hany, hlat, hne, insHist]

/-- C7 witness data: one prior record for (Mira, Kills) at line 4.5. -/
def histC7 : List HistRow :=
  [⟨"Mira", "Kills", 9/2, "2025-01-01T00:00:00", propHash "Mira" "Kills" (9/2)⟩]

/-- The same (player, stat) at a moved line 5.5. -/
def propC7 : RawProp := ⟨"Mira", "", "", "", "Kills", 11/2, "-110", "-110"⟩

/-- Witness for C7: the moved line classifies CHANGED carrying old line 4.5. -/
theorem c7_changed_carries_old_line_witness :
    detectChanges [propC7] histC7 "2025-01-02T00:00:00"
      = ([], [⟨propC7, 9/2⟩], histC7 ++ [insHist propC7 "2025-01-02T00:00:00"]) := by
  have h0 : propC7.line = 11/2 := rfl
  refine c7_changed_carries_old_line propC7 histC7 "2025-01-02T00:00:00"
    ⟨"Mira", "Kills", 9/2, "2025-01-01T00:00:00", propHash "Mira" "Kills" (9/2)⟩
    ?_ (by simp [histC7]) rfl rfl ?_ (by norm_num [propC7])
  · intro r' hr'
    rw [histC7, List.mem_singleton] at hr'
    subst hr'
    show propHash "Mira" "Kills" (9/2) ≠ propHash propC7.player propC7.stat_type propC7.line
    simp only [propHash, floatRepr_9_2, propC7, h0, floatRepr_11_2]
    decide
  · intro r' hr' hner _
    rw [histC7, List.mem_singleton] at hr'
    exact absurd hr' hner

/-! ## Store lemmas and claim C8 -/

/-- Inserting rows with fresh identity keys appends them in order. -/
lemma foldl_insertPropRow (ts : String) :
    ∀ (l : List RawProp) (acc : List PropsRow),
      (∀ p ∈ l, ∀ a ∈ acc,
        ¬(a.player = p.player ∧ a.stat_type = p.stat_type ∧ a.line = p.line)) →
      l.Pairwise (fun a b => (a.player, a.stat_type, a.line) ≠ (b.player, b.stat_type, b.line)) →
      l.foldl (fun t p => insertPropRow t (rowOfProp p ts)) acc
        = acc ++ l.map (fun p => rowOfProp p ts) := by
  intro l
  induction l with
  | nil => intro acc _ _; simp
  | cons p t ih =>
    intro acc hfresh hpw
    rw [List.foldl_cons]
    have hstep : insertPropRow acc (rowOfProp p ts) = acc ++ [rowOfProp p ts] := by
      rw [insertPropRow]
      congr 1
      rw [List.filter_eq_self]
      intro a ha
      have := hfresh p (List.mem_cons_self _ _) a ha
      simp only [rowOfProp, Bool.not_eq_eq_eq_not, Bool.not_true, Bool.and_eq_false_iff]
      by_cases h1 : a.player = p.player
      · by_cases h2 : a.stat_type = p.stat_type
        · by_cases h3 : a.line = p.line
          · exact absurd ⟨h1, h2, h3⟩ this
          · exact Or.inr (by simpa using h3)
        · exact Or.inl (Or.inr (by simpa using h2))
      · exact Or.inl (Or.inl (by simpa using h1))
    rw [hstep]
    rw [ih (acc ++ [rowOfProp p ts]) ?_ (List.Pairwise.of_cons hpw)]
    · simp
    · intro q hq a ha
      rcases List.mem_append.1 ha with h | h
      · exact hfresh q (List.mem_cons_of_mem _ hq) a h
      · rw [List.mem_singleton] at h
        subst h
        have := (List.pairwise_cons.1 hpw).1 q hq
        simp only [rowOfProp]
        intro hc
        exact this (by
          rcases hc with ⟨h1, h2, h3⟩
          rw [Prod.ext_iff, Prod.ext_iff]
          exact ⟨h1, h2, h3⟩)

/-- Inserting prediction rows with fresh identity keys appends them. -/
lemma foldl_insertPredRow (ts : String) :
    ∀ (l : List PredFull) (acc : List PredRow),
      (∀ p ∈ l, ∀ a ∈ acc,
        ¬(a.player = p.player ∧ a.stat_type = p.stat_type ∧ a.line = p.line)) →
      l.Pairwise (fun a b => (a.player, a.stat_type, a.line) ≠ (b.player, b.stat_type, b.line)) →
      l.foldl (fun t q => insertPredRow t (rowOfPred q ts)) acc
        = acc ++ l.map (fun q => rowOfPred q ts) := by
  intro l
  induction l with
  | nil => intro acc _ _; simp
  | cons p t ih =>
    intro acc hfresh hpw
    rw [List.foldl_cons]
    have hstep : insertPredRow acc (rowOfPred p ts) = acc ++ [rowOfPred p ts] := by
      rw [insertPredRow]
      congr 1
      rw [List.filter_eq_self]
      intro a ha
      have := hfresh p (List.mem_cons_self _ _) a ha
      simp only [rowOfPred, Bool.not_eq_eq_eq_not, Bool.not_true, Bool.and_eq_false_iff]
      by_cases h1 : a.player = p.player
      · by_cases h2 : a.stat_type = p.stat_type
        · by_cases h3 : a.line = p.line
          · exact absurd ⟨h1, h2, h3⟩ this
          · exact Or.inr (by simpa using h3)
        · exact Or.inl (Or.inr (by simpa using h2))
      · exact Or.inl (Or.inl (by simpa using h1))
    rw [hstep]
    rw [ih (acc ++ [rowOfPred p ts]) ?_ (List.Pairwise.of_cons hpw)]
    · simp
    · intro q hq a ha
      rcases List.mem_append.1 ha with h | h
      · exact hfresh q (List.mem_cons_of_mem _ hq) a h
      · rw [List.mem_singleton] at h
        subst h
        have := (List.pairwise_cons.1 hpw).1 q hq
        simp only [rowOfPred]
        intro hc
        exact this (by
          rcases hc with ⟨h1, h2, h3⟩
          rw [Prod.ext_iff, Prod.ext_iff]
          exact ⟨h1, h2, h3⟩)

/-- C8: the snapshot write is a full replace — after saving lists with
pairwise-distinct identity keys, reading the snapshot returns exactly the
rows of those lists (whatever the previous database state held), and a
subsequent save of empty lists leaves both current-snapshot tables
empty. -/
theorem c8_snapshot_full_replace (db : PropsDb) (props : List RawProp)
    (preds : List PredFull) (ts ts2 : String)
    (hp : props.Pairwise
      (fun a b => (a.player, a.stat_type, a.line) ≠ (b.player, b.stat_type, b.line)))
    (hq : preds.Pairwise
      (fun a b => (a.player, a.stat_type, a.line) ≠ (b.player, b.stat_type, b.line))) :
    readSnapshot (savePropsAndPredictions props preds ts db)
      = (props.map (fun p => rowOfProp p ts), preds.map (fun q => rowOfPred q ts)) ∧
    readSnapshot (savePropsAndPredictions [] [] ts2 (savePropsAndPredictions props preds ts db))
      = ([], []) := by
  constructor
  · rw [readSnapshot, savePropsAndPredictions]
    rw [foldl_insertPropRow ts props [] (by simp) hp]
    rw [foldl_insertPredRow ts preds [] (by simp) hq]
    simp
  · rfl

/-- C8 witness data: a pre-existing stale snapshot. -/
def dbC8 : PropsDb :=
  ⟨[⟨"Stale", "", "", "", "Kills", 7, "-110", "-110", "t0"⟩],
   [⟨"Stale", "Kills", 7, 7, 0, "PASS", 50, 0, "t0"⟩]⟩

/-- C8 witness props: two distinct identity keys. -/
def propsC8 : List RawProp :=
  [⟨"Yatoro", "Spirit", "OG", "Spirit vs OG", "Kills", 11/2, "-110", "-110"⟩,
   ⟨"Larl", "Spirit", "OG", "Spirit vs OG", "Kills", 5, "-110", "-110"⟩]

/-- C8 witness predictions. -/
def predsC8 : List PredFull :=
  [⟨"Yatoro", "Spirit", "OG", "Spirit vs OG", "Kills", 11/2, "-110", "-110",
    9/2, -91/5, "UNDER", 86, 91/2⟩]

/-- Witness for C8 at the concrete snapshot. -/
theorem c8_snapshot_full_replace_witness :
    readSnapshot (savePropsAndPredictions propsC8 predsC8 "t1" dbC8)
      = (propsC8.map (fun p => rowOfProp p "t1"), predsC8.map (fun q => rowOfPred q "t1")) ∧
    readSnapshot (savePropsAndPredictions [] [] "t2"
        (savePropsAndPredictions propsC8 predsC8 "t1" dbC8))
      = ([], []) :=
  c8_snapshot_full_replace dbC8 propsC8 predsC8 "t1" "t2"
    (by simp [propsC8]) (by simp [predsC8])

/-! ## Strip lemmas used to show resolved player names are non-empty -/

/-- A string whose strip is empty is all whitespace. -/
lemma trimCharList_eq_nil (l : List Char) (h : trimCharList l = []) :
    ∀ c ∈ l, isPySpace c = true := by
  unfold trimCharList at h
  rw [List.reverse_eq_nil_iff, List.dropWhile_eq_nil_iff] at h
  intro c hc
  rw [← List.takeWhile_append_dropWhile (p := isPySpace) (l := l)] at hc
  rcases List.mem_append.1 hc with hm | hm
  · exact List.mem_takeWhile_imp hm
  · exact h c (List.mem_reverse.2 hm)

/-- A last element that the predicate rejects survives `dropWhile`. -/
lemma mem_dropWhile_last (p : Char → Bool) (c : Char) (hc : p c = false) :
    ∀ xs : List Char, c ∈ (xs ++ [c]).dropWhile p := by
  intro xs
  induction xs with
  | nil => simp [List.dropWhile, hc]
  | cons x t ih =>
    by_cases hx : p x
    · simpa [List.dropWhile_cons, hx] using ih
    · simp [List.dropWhile_cons, hx]

/-- A non-empty strip contains a non-whitespace character. -/
lemma trimCharList_has_nonspace (l : List Char) (h : trimCharList l ≠ []) :
    ∃ c ∈ trimCharList l, isPySpace c = false := by
  unfold trimCharList at h ⊢
  have hmne : l.dropWhile isPySpace ≠ [] := by
    intro he
    apply h
    rw [he]
    simp
  obtain ⟨c, t, hct⟩ := List.exists_cons_of_ne_nil hmne
  have hc : isPySpace c = false := by
    have h2 := List.head?_dropWhile_not isPySpace l
    rw [hct] at h2
    simpa using h2
  refine ⟨c, ?_, hc⟩
  rw [List.mem_reverse, hct, List.reverse_cons]
  exact mem_dropWhile_last _ _ hc _

/-- Appending anything to a string with a non-whitespace character keeps
its strip non-empty. -/
lemma pyStrip_append_ne_empty (a b : String) (c : Char) (hc : c ∈ a.data)
    (hcs : isPySpace c = false) : pyStrip (a ++ b) ≠ "" := by
  intro he
  have hdata : trimCharList ((a ++ b).data) = [] := by
    have := congrArg String.data he
    simpa [pyStrip] using this
  have := trimCharList_eq_nil _ hdata c (by
    rw [String.data_append]
    exact List.mem_append.2 (Or.inl hc))
  rw [this] at hcs
  cases hcs

/-- A non-empty stripped string keeps a non-whitespace character. -/
lemma pyStrip_ne_empty_nonspace (s : String) (h : pyStrip s ≠ "") :
    ∃ c ∈ (pyStrip s).data, isPySpace c = false := by
  have hne : trimCharList s.data ≠ [] := by
    intro he
    exact h (by simp [pyStrip, he])
  simpa [pyStrip] using trimCharList_has_nonspace s.data hne

/-! ## Non-emptiness of every resolved player name -/

/-- The allow-list fallback never returns an empty name. -/
lemma knownPlayerIn_ne (t n : String) (h : knownPlayerIn t = some n) : n ≠ "" := by
  have hm : n ∈ KNOWN_PLAYERS := List.mem_of_find?_eq_some h
  have hall : ∀ x ∈ KNOWN_PLAYERS, x ≠ "" := by decide
  exact hall n hm

/-- The suffix-stripping loop only returns names it checked non-empty. -/
lemma findStripName_ne : ∀ (l : List String) (pp n : String),
    findStripName l pp = some n → n ≠ "" := by
  intro l
  induction l with
  | nil =>
    intro pp n h
    exact absurd h (by simp [findStripName])
  | cons s t ih =>
    intro pp n h
    unfold findStripName at h
    split_ifs at h with h1 h2
    · injection h with h
      subst h
      exact h2
    · exact ih pp n h
    · exact ih pp n h

/-- Titles of the `Dota: <Player><Stat>` convention yield non-empty
names. -/
lemma dotaTitleName_ne (t n : String) (h : dotaTitleName t = some n) : n ≠ "" := by
  unfold dotaTitleName at h
  split_ifs at h
  split at h
  · exact findStripName_ne _ _ _ h
  · exact Option.noConfusion h

/-- The name cascade never returns an empty name when every branch source
is a stripped string and the fallback is sound. -/
lemma nameFromFields_ne (fS lS : String) (fallback : Option String) (n : String)
    (hfb : ∀ m, fallback = some m → m ≠ "")
    (h : nameFromFields (pyStrip fS) (pyStrip lS) fallback = some n) : n ≠ "" := by
  unfold nameFromFields at h
  split_ifs at h with h1 h2 h3
  · injection h with h
    subst h
    simp only [Bool.and_eq_true, decide_eq_true_eq] at h1
    exact h1.1
  · injection h with h
    subst h
    simp only [Bool.and_eq_true, decide_eq_true_eq] at h2
    exact h2.1
  · injection h with h
    subst h
    simp only [decide_eq_true_eq] at h3
    obtain ⟨c, hc, hcs⟩ := pyStrip_ne_empty_nonspace fS h3
    exact pyStrip_append_ne_empty (pyStrip fS ++ " ") (pyStrip lS) c
      (by rw [String.data_append]; exact List.mem_append.2 (Or.inl hc)) hcs
  · exact hfb n h

/-- Branch (b) of player-name resolution never returns an empty name. -/
lemma extractNameFields_some_ne (pl : Json) (t n : String)
    (h : extractNameFields pl t = .ok (some n)) : n ≠ "" := by
  unfold extractNameFields at h
  repeat' split at h
  all_goals try exact Except.noConfusion h
  injection h with h
  exact nameFromFields_ne _ _ _ _ (fun m hm => knownPlayerIn_ne t m hm) h

/-- Every successfully resolved player name is non-empty. -/
lemma extractPlayerName_some_ne (titleS : String) (as : Json)
    (apps ps : List (Json × Json)) (n : String)
    (h : extractPlayerName titleS as apps ps = .ok (some n)) : n ≠ "" := by
  unfold extractPlayerName at h
  repeat' split at h
  all_goals try exact Except.noConfusion h
  all_goals try exact extractNameFields_some_ne _ _ _ h
  all_goals injection h with h
  all_goals try exact knownPlayerIn_ne _ _ h
  injection h with h
  subst h
  exact dotaTitleName_ne titleS _ (by assumption)

/-- Every prop emitted by the per-entry loop has a positive line and a
non-empty player. -/
lemma perLineBody_sound (apps ps : List (Json × Json)) (l : Json) (p : RawProp)
    (h : perLineBody apps ps l = .ok (some p)) : 0 < p.line ∧ p.player ≠ "" := by
  unfold perLineBody at h
  repeat' split at h
  all_goals try exact Except.noConfusion h
  all_goals try (injection h with h; exact Option.noConfusion h)
  injection h with h
  injection h with h
  subst h
  constructor
  · exact not_le.1 (by assumption)
  · exact extractPlayerName_some_ne _ _ _ _ _ (by assumption)

/-! ## Well-formedness of the top-level document shape (claim C1) -/

/-- Values over which the per-entry loop can iterate without the `for`
statement itself raising. -/
def iterOk : Json → Bool
  | .arr _ => true
  | .str _ => true
  | .obj _ => true
  | _ => false

/-- An element of the appearance/player collections that the id-map
comprehension accepts: a dict with a hashable `id`. -/
def goodIdElem : Json → Bool
  | .obj kvs =>
    match kvs.find? (fun kv => kv.1 == "id") with
    | some kv => pyHashable kv.2
    | none => false
  | _ => false

/-- A collection the id-map comprehension accepts without raising. -/
def goodIdColl (j : Json) : Bool :=
  match j with
  | .arr xs => xs.all goodIdElem
  | _ => false

/-- Total dict lookup with default for stating well-formedness. -/
def getD (d : Json) (k : String) (dflt : Json) : Json :=
  match d with
  | .obj kvs =>
    match kvs.find? (fun kv => kv.1 == k) with
    | some kv => kv.2
    | none => dflt
  | _ => dflt

/-- Top-level collections a dict document must offer: `appearances` and
`players` entries that are lists of dicts with hashable ids, and an
iterable `over_under_lines` entry. -/
def topColls : Json → Bool
  | .obj kvs =>
    goodIdColl (getD (.obj kvs) "appearances" (.arr [])) &&
    goodIdColl (getD (.obj kvs) "players" (.arr [])) &&
    iterOk (getD (.obj kvs) "over_under_lines" (.arr []))
  | .null => false
  | .b _ => false
  | .num _ => false
  | .str _ => false
  | .arr _ => false

/-- Well-formed top-level feed document: falsy (the early return), or a
dict with well-formed top-level collections.  Individual line entries
remain arbitrary. -/
def WellFormedDoc (d : Json) : Bool :=
  pyFalsy d || topColls d

/-- On dicts the raising lookup agrees with the total one. -/
lemma pyGetD_obj (kvs : List (String × Json)) (k : String) (dflt : Json) :
    pyGetD (.obj kvs) k dflt = .ok (getD (.obj kvs) k dflt) := by
  unfold pyGetD getD
  cases h : List.find? (fun kv => kv.1 == k) kvs <;> simp [h]

/-- The id-map loop succeeds on collections of dicts with hashable ids. -/
lemma buildIdMapAux_ok : ∀ (xs : List Json) (m : List (Json × Json)),
    xs.all goodIdElem = true → ∃ m', buildIdMapAux m xs = .ok m' := by
  intro xs
  induction xs with
  | nil => intro m _; exact ⟨m, rfl⟩
  | cons a t ih =>
    intro m hall
    rw [List.all_cons, Bool.and_eq_true] at hall
    obtain ⟨ha, ht⟩ := hall
    cases a with
    | obj kvs =>
      simp only [goodIdElem] at ha
      cases heq : kvs.find? (fun kv => kv.1 == "id") with
      | some kv =>
        rw [heq] at ha
        simp only [buildIdMapAux, heq]
        rw [if_pos ha]
        exact ih _ ht
      | none =>
        rw [heq] at ha
        exact absurd ha (by simp)
    | null => simp [goodIdElem] at ha
    | b x => simp [goodIdElem] at ha
    | num q => simp [goodIdElem] at ha
    | str s => simp [goodIdElem] at ha
    | arr l2 => simp [goodIdElem] at ha

/-- The id-map comprehension succeeds on a well-formed collection. -/
lemma buildIdMap_ok (j : Json) (h : goodIdColl j = true) :
    ∃ m, buildIdMap j = .ok m := by
  cases j with
  | arr xs =>
    obtain ⟨m, hm⟩ := buildIdMapAux_ok xs [] (by simpa [goodIdColl] using h)
    exact ⟨m, by simp [buildIdMap, pyIter, hm]⟩
  | null => simp [goodIdColl] at h
  | b x => simp [goodIdColl] at h
  | num q => simp [goodIdColl] at h
  | str s => simp [goodIdColl] at h
  | obj kvs => simp [goodIdColl] at h

/-- Iteration succeeds on iterable values. -/
lemma pyIter_ok (j : Json) (h : iterOk j = true) : ∃ xs, pyIter j = .ok xs := by
  cases j with
  | arr xs => exact ⟨xs, rfl⟩
  | str s => exact ⟨_, rfl⟩
  | obj kvs => exact ⟨_, rfl⟩
  | null => simp [iterOk] at h
  | b x => simp [iterOk] at h
  | num q => simp [iterOk] at h

/-- C1 amended: for every raw feed document whose top-level shape is
well-formed (`WellFormedDoc`: possibly-absent `appearances`/`players`
entries that are lists of dicts with hashable ids, an iterable
`over_under_lines` entry — the individual line entries stay arbitrary),
`parse_dota_props` raises no exception, and every prop it returns has a
positive line and a non-empty resolved player; malformed individual
entries are skipped. -/
theorem c1_normalize_total_and_sound (d : Json) (h : WellFormedDoc d = true) :
    ∃ ps, parseDotaProps d = .ok ps ∧ ∀ p ∈ ps, 0 < p.line ∧ p.player ≠ "" := by
  by_cases hf : pyFalsy d = true
  · refine ⟨[], ?_, by simp⟩
    unfold parseDotaProps
    rw [if_pos hf]
  · rw [WellFormedDoc, Bool.or_eq_true] at h
    rcases h with h | h
    · exact absurd h hf
    · cases d with
      | obj kvs =>
        rw [topColls, Bool.and_eq_true, Bool.and_eq_true] at h
        obtain ⟨⟨hApp, hPl⟩, hIt⟩ := h
        obtain ⟨apps, happs⟩ := buildIdMap_ok _ hApp
        obtain ⟨pls, hpls⟩ := buildIdMap_ok _ hPl
        obtain ⟨lns, hlns⟩ := pyIter_ok _ hIt
        refine ⟨lns.filterMap (fun l =>
          match perLineBody apps pls l with
          | .ok r => r
          | .error _ => none), ?_, ?_⟩
        · unfold parseDotaProps
          rw [if_neg hf]
          rw [pyGetD_obj kvs "over_under_lines" (.arr [])]
          simp only []
          rw [pyGetD_obj kvs "appearances" (.arr [])]
          simp only []
          rw [happs]
          simp only []
          rw [pyGetD_obj kvs "players" (.arr [])]
          simp only []
          rw [hpls]
          simp only []
          rw [hlns]
        · intro p hp
          obtain ⟨l, _, hfl⟩ := List.mem_filterMap.1 hp
          cases hres : perLineBody apps pls l with
          | error e => rw [hres] at hfl; exact Option.noConfusion hfl
          | ok r =>
            rw [hres] at hfl
            cases r with
            | none => exact Option.noConfusion hfl
            | some p0 =>
              have : p0 = p := Option.some.injEq p0 p ▸ hfl
              subst this
              exact perLineBody_sound apps pls l p0 hres
      | null => simp [topColls] at h
      | b x => simp [topColls] at h
      | num q => simp [topColls] at h
      | str s => simp [topColls] at h
      | arr l2 => simp [topColls] at h

deriving instance DecidableEq for Except

/-- C1 counterexample data: a raw document (an ordinary JSON value) whose
`appearances` collection contains a dict without an `id` key. -/
def badDoc : Json :=
  .obj [("over_under_lines", .arr []), ("appearances", .arr [.obj []]),
        ("players", .arr [])]

/-- C1 counterexample: `parse_dota_props` does raise on some JSON-shaped
documents — the id-map comprehensions sit outside the per-entry `try`, so
an appearance record without an `id` key raises `KeyError` out of the
call. -/
theorem c1_counterexample : parseDotaProps badDoc = .error "KeyError: id" := by
  decide

/-- C1 witness document: well-formed at the top level, with one malformed
line entry (a bare number) that the per-entry guard skips. -/
def wfDoc : Json :=
  .obj [("over_under_lines", .arr [.num 3]), ("appearances", .arr []),
        ("players", .arr [])]

/-- Witness for the amended C1. -/
theorem c1_normalize_total_and_sound_witness :
    ∃ ps, parseDotaProps wfDoc = .ok ps ∧ ∀ p ∈ ps, 0 < p.line ∧ p.player ≠ "" :=
  c1_normalize_total_and_sound wfDoc (by decide)

/-! ## Concrete cycle input for claim C2 -/

/-- A feed document with one well-formed Dota line entry (player Yatoro,
stat kills, line 10). -/
def propDoc : Json :=
  .obj [("over_under_lines", .arr [
          .obj [("over_under", .obj [("title", .str "Dota: Yatoro Kills"),
                                     ("appearance_stat", .obj [("stat", .str "kills")])]),
                ("stat_value", .num 10)]]),
        ("appearances", .arr []), ("players", .arr [])]

/-- The prop `parse_dota_props` extracts from `propDoc`. -/
def yatoroProp : RawProp :=
  ⟨"Yatoro", "", "", "Dota: Yatoro Kills", "Kills", 10, "-110", "-110"⟩

/-- Averages provider giving Yatoro a 20-kill recent average (a 100% edge
over the line of 10 — a qualifying pick). -/
def avgsC2 : AvgsMap := fun p =>
  if p = "Yatoro" then some ⟨some 20, some 20, some 20, some 20, some 20, some 20⟩ else none

/-- The merged prediction for the C2 prop. -/
def yatoroPred : PredFull := mkPredFull yatoroProp ⟨20, 100, "OVER", 95, 250⟩


/-- Parsing the C2 document yields exactly the Yatoro prop. -/
lemma parse_propDoc : parseDotaProps propDoc = .ok [yatoroProp] := by
  decide

/-- The prediction run on the C2 prop: a 100% edge OVER pick. -/
lemma runPreds_propDoc : runPredictionsE avgsC2 [yatoroProp] = .ok [yatoroPred] := by
  norm_num +decide [runPredictionsE, generatePrediction, baselineOf, avgsC2, pyIn,
    MIN_EDGE, pyRound1, pyRound0, mkPredFull, yatoroProp, yatoroPred,
    abs_of_nonneg, abs_of_nonpos]

/-- The C2 prediction qualifies for dispatch. -/
lemma goodPicks_propDoc : goodPicksOf [yatoroPred] = [yatoroPred] := by
  norm_num +decide [goodPicksOf, yatoroPred, mkPredFull, yatoroProp, MIN_EDGE,
    abs_of_nonneg]

/-- Against an empty history, the C2 prop classifies NEW. -/
lemma detect_propDoc (ts : String) :
    detectChanges [yatoroProp] [] ts = ([yatoroProp], [], [insHist yatoroProp ts]) := by
  simp [detectChanges, detectStep, latestRow, insHist]

/-- C2 counterexample: on the concrete cycle input, the run-once path
persists and then issues the webhook POST without ever invoking change
classification (so the POST is not gated on any NEW or CHANGED prop), and
the monitor path runs classification strictly before the snapshot
persist — both contradicting the claimed order and gating. -/
theorem c2_counterexample :
    runOnceEvents (some propDoc) avgsC2 = [.fetch, .persist, .httpPost] ∧
    Event.classify ∉ runOnceEvents (some propDoc) avgsC2 ∧
    monitorIterEvents (some propDoc) avgsC2 [] "t0"
      = [.fetch, .classify, .persist, .httpPost] := by
  have hfal : pyFalsy propDoc = false := by decide
  have h1 : runOnceEvents (some propDoc) avgsC2 = [.fetch, .persist, .httpPost] := by
    unfold runOnceEvents
    simp only [hfal, Bool.false_eq_true, if_false, parse_propDoc, runPreds_propDoc,
      goodPicks_propDoc]
    simp
  refine ⟨h1, by rw [h1]; simp, ?_⟩
  unfold monitorIterEvents
  simp only [hfal, Bool.false_eq_true, if_false, parse_propDoc, runPreds_propDoc,
    detect_propDoc, goodPicks_propDoc]
  simp

/-- C2 amended: the run-once path never runs change classification, and
it issues the webhook POST exactly when a qualifying pick (non-PASS with
`|edge| ≥ MIN_EDGE`) exists — regardless of change status; in the monitor
loop, classification runs strictly before the snapshot is persisted, and
the webhook POST happens exactly in iterations that classified at least
one prop NEW or CHANGED and had a qualifying pick. -/
theorem c2_cycle_order_and_gating (data : Option Json) (avgs : AvgsMap)
    (hist : List HistRow) (ts : String) :
    (Event.classify ∉ runOnceEvents data avgs) ∧
    (Event.httpPost ∈ runOnceEvents data avgs ↔ runOnceGoodPicks data avgs ≠ []) ∧
    (monitorIterEvents data avgs hist ts ∈
      [[Event.fetch], [Event.fetch, Event.crash],
       [Event.fetch, Event.classify, Event.crash],
       [Event.fetch, Event.classify, Event.persist],
       [Event.fetch, Event.classify, Event.persist, Event.httpPost]]) ∧
    (Event.httpPost ∈ monitorIterEvents data avgs hist ts ↔
      (monitorIterChanges data avgs hist ts ≠ 0 ∧
       monitorIterGoodPicks data avgs hist ts ≠ [])) := by
  refine ⟨?_, ?_, ?_, ?_⟩
  · unfold runOnceEvents
    cases data with
    | none => simp
    | some d =>
      by_cases hf : pyFalsy d = true
      · simp [hf]
      · simp only [if_neg hf]
        cases parseDotaProps d with
        | error e => simp
        | ok props =>
          by_cases he : props.isEmpty
          · simp [he]
          · simp only [if_neg he]
            cases runPredictionsE avgs props with
            | error e => simp
            | ok preds =>
              by_cases hg : (goodPicksOf preds).isEmpty
              · simp [hg]
              · simp [hg]
  · unfold runOnceEvents runOnceGoodPicks
    cases data with
    | none => simp
    | some d =>
      by_cases hf : pyFalsy d = true
      · simp [hf]
      · simp only [if_neg hf]
        cases parseDotaProps d with
        | error e => simp
        | ok props =>
          by_cases he : props.isEmpty
          · simp [he]
          · simp only [if_neg he]
            cases runPredictionsE avgs props with
            | error e => simp
            | ok preds =>
              by_cases hg : (goodPicksOf preds).isEmpty
              · have hg2 := List.isEmpty_iff.1 hg
                simp [hg, hg2]
              · have hne : goodPicksOf preds ≠ [] := fun hnil => hg (by simp [hnil])
                simp [hg, hne]
  · unfold monitorIterEvents
    cases data with
    | none => simp
    | some d =>
      by_cases hf : pyFalsy d = true
      · simp [hf]
      · simp only [if_neg hf]
        cases parseDotaProps d with
        | error e => simp
        | ok props =>
          by_cases he : props.isEmpty
          · simp [he]
          · simp only [if_neg he]
            cases runPredictionsE avgs props with
            | error e => simp
            | ok preds =>
              by_cases hc : (detectChanges props hist ts).1.isEmpty
                  && (detectChanges props hist ts).2.1.isEmpty
              · simp [hc]
              · by_cases hg : (goodPicksOf preds).isEmpty
                · simp [hc, hg]
                · simp [hc, hg]
  · unfold monitorIterEvents monitorIterChanges monitorIterGoodPicks
    cases data with
    | none => simp
    | some d =>
      by_cases hf : pyFalsy d = true
      · simp [hf]
      · simp only [if_neg hf]
        cases parseDotaProps d with
        | error e => simp
        | ok props =>
          by_cases he : props.isEmpty
          · simp [he]
          · simp only [if_neg he]
            cases runPredictionsE avgs props with
            | error e => simp
            | ok preds =>
              by_cases hc : (detectChanges props hist ts).1.isEmpty
                  && (detectChanges props hist ts).2.1.isEmpty
              · rw [Bool.and_eq_true] at hc
                obtain ⟨hc1, hc2⟩ := hc
                rw [List.isEmpty_iff] at hc1 hc2
                have hc : (detectChanges props hist ts).1.isEmpty
                    && (detectChanges props hist ts).2.1.isEmpty := by
                  simp [hc1, hc2]
                simp [hc, hc1, hc2]
              · by_cases hg : (goodPicksOf preds).isEmpty
                · have hg2 := List.isEmpty_iff.1 hg
                  simp [hc, hg, hg2]
                · have hne : goodPicksOf preds ≠ [] := fun hnil => hg (by simp [hnil])
                  have hchanges : (detectChanges props hist ts).1.length
                      + (detectChanges props hist ts).2.1.length ≠ 0 := by
                    rw [Bool.and_eq_true, not_and_or] at hc
                    rcases hc with hc | hc <;>
                      (rw [Bool.not_eq_true, List.isEmpty_eq_false_iff_exists_mem] at hc) <;>
                      obtain ⟨x, hx⟩ := hc
                    · have := List.length_pos.2 (List.ne_nil_of_mem hx)
                      omega
                    · have := List.length_pos.2 (List.ne_nil_of_mem hx)
                      omega
                  simp [hc, hg, hne, hchanges]

/-- Witness for the amended C2 on the concrete cycle input. -/
theorem c2_cycle_order_and_gating_witness :
    (Event.classify ∉ runOnceEvents (some propDoc) avgsC2) ∧
    (monitorIterEvents (some propDoc) avgsC2 [] "t0" ∈
      [[Event.fetch], [Event.fetch, Event.crash],
       [Event.fetch, Event.classify, Event.crash],
       [Event.fetch, Event.classify, Event.persist],
       [Event.fetch, Event.classify, Event.persist, Event.httpPost]]) :=
  ⟨(c2_cycle_order_and_gating (some propDoc) avgsC2 [] "t0").1,
   (c2_cycle_order_and_gating (some propDoc) avgsC2 [] "t0").2.2.1⟩
